import Mathlib

set_option maxRecDepth 8000

/-!
# Verification of the stafi-node core (rdex swap engine and rtoken series pallet)

Shallow embedding of the two source files

* `node/pallets/rdex/swap/src/lib.rs`   (CFMM arithmetic kernel and the pool
  extrinsics `swap`, `add_liquidity`, `remove_liquidity`, `create_pool`)
* `node/pallets/rtoken/series/src/lib.rs` (bond lifecycle: `liquidity_bond`,
  `liquidity_bond_and_swap`, `execute_bond_record`, `liquidity_unbond`,
  `refund_swap_fee`)

Machine integers are embedded as `Nat` with explicit saturation: `u128`
saturating operations cap at `2^128 - 1`, the 512-bit wide-integer kernel
(`sp_core::U512`) caps at `2^512 - 1`.  `checked_div(..).unwrap_or(0)`
becomes division that returns `0` on a zero divisor.  Opaque byte-string
identifiers (`Vec<u8>` pool ids, block hashes, tx hashes, recipients) and
account ids are embedded as `Nat` tags; fallible extrinsics return `Except`.
-/

namespace Stafi

/-! ## Arithmetic kernel (U512 / u128 saturating operations) -/

/-- `u128::MAX` as a natural number. -/
def U128_MAX : ℕ := 2 ^ 128 - 1

/-- `U512::MAX` as a natural number. -/
def U512_MAX : ℕ := 2 ^ 512 - 1

/-- `U512::saturating_add`. -/
def satAdd512 (a b : ℕ) : ℕ := min (a + b) U512_MAX

/-- `U512::saturating_mul`. -/
def satMul512 (a b : ℕ) : ℕ := min (a * b) U512_MAX

/-- `u128::saturating_add`. -/
def satAdd128 (a b : ℕ) : ℕ := min (a + b) U128_MAX

/-- `U512::checked_div(..).unwrap_or(U512::zero())`: division by zero yields 0.
(`Nat` subtraction already matches `saturating_sub`.) -/
def checkedDiv (a b : ℕ) : ℕ := if b = 0 then 0 else a / b

/-- `Module::safe_to_u128`: narrow a `U512` value to `u128`, saturating at
`u128::MAX` (source lines 403-409). -/
def safe_to_u128 (number : ℕ) : ℕ := if number > U128_MAX then U128_MAX else number

/-- `Module::cal_pool_unit` (source lines 247-315), the slip-adjusted LP-unit
formula.  Arguments: `old_pool_unit = P`, `fis_balance = F`,
`rtoken_balance = R`, `fis_amount = f`, `rtoken_amount = r`. -/
def cal_pool_unit (old_pool_unit fis_balance rtoken_balance fis_amount rtoken_amount : ℕ) :
    ℕ × ℕ :=
  if fis_amount = 0 ∧ rtoken_amount = 0 then (0, 0)
  else if satAdd128 fis_balance fis_amount = 0 then (0, 0)
  else if satAdd128 rtoken_balance rtoken_amount = 0 then (0, 0)
  else if fis_balance = 0 ∨ rtoken_balance = 0 then (fis_amount, fis_amount)
  else
    let p_capital := old_pool_unit
    let f_capital := fis_balance
    let r_capital := rtoken_balance
    let f := fis_amount
    let r := rtoken_amount
    let numerator := satAdd512 (satMul512 f_capital r) (satMul512 f r_capital)
    let raw_unit := checkedDiv (satMul512 p_capital numerator)
      (satMul512 (satMul512 r_capital f_capital) 2)
    if raw_unit = 0 then (0, 0)
    else
      let abs :=
        if satMul512 f_capital r > satMul512 f r_capital then
          satMul512 f_capital r - satMul512 f r_capital
        else
          satMul512 f r_capital - satMul512 f_capital r
      let adj_unit :=
        if abs ≠ 0 then
          checkedDiv (satMul512 raw_unit abs)
            (satMul512 (satAdd512 f f_capital) (satAdd512 r r_capital))
        else 0
      let add_unit := raw_unit - adj_unit
      let total_unit := satAdd512 p_capital add_unit
      (safe_to_u128 total_unit, safe_to_u128 add_unit)

/-- `Module::cal_swap_result` (source lines 319-349):
`y = x·X·Y/(x+X)^2`, `fee = x^2·Y/(x+X)^2` in U512, narrowed to u128. -/
def cal_swap_result (fis_balance rtoken_balance input_amount : ℕ) (input_is_fis : Bool) :
    ℕ × ℕ :=
  if fis_balance = 0 ∨ rtoken_balance = 0 ∨ input_amount = 0 then (0, 0)
  else
    let x := input_amount
    let x_capital := if input_is_fis then fis_balance else rtoken_balance
    let y_capital := if input_is_fis then rtoken_balance else fis_balance
    let t := satAdd512 x x_capital
    let denominator := satMul512 t t
    let y := checkedDiv (satMul512 (satMul512 x x_capital) y_capital) denominator
    let fee := checkedDiv (satMul512 (satMul512 x x) y_capital) denominator
    (safe_to_u128 y, safe_to_u128 fee)

/-- `Module::cal_remove_result` (source lines 351-401): proportional
withdrawal amounts and the internal-swap input amount. -/
def cal_remove_result (pool_unit rm_unit swap_unit fis_balance rtoken_balance : ℕ)
    (input_is_fis : Bool) : ℕ × ℕ × ℕ :=
  if pool_unit = 0 ∨ rm_unit = 0 then (0, 0, 0)
  else
    let use_pool_unit := pool_unit
    let use_fis_balance := fis_balance
    let use_rtoken_balance := rtoken_balance
    let use_rm_unit := if rm_unit > pool_unit then pool_unit else rm_unit
    let use_swap_unit := if swap_unit > rm_unit then rm_unit else swap_unit
    let fis_amount := checkedDiv (satMul512 use_rm_unit use_fis_balance) use_pool_unit
    let rtoken_amount := checkedDiv (satMul512 use_rm_unit use_rtoken_balance) use_pool_unit
    let swap_amount :=
      if input_is_fis then
        checkedDiv (satMul512 use_swap_unit use_fis_balance) use_pool_unit
      else
        checkedDiv (satMul512 use_swap_unit use_rtoken_balance) use_pool_unit
    (safe_to_u128 fis_amount, safe_to_u128 rtoken_amount, safe_to_u128 swap_amount)

/-! ## Pure-arithmetic renderings of the kernel formulas (the claims' statements) -/

/-- The LP-unit formula exactly as the spec words it, in plain `Nat` arithmetic
(truncating division), together with the `raw = 0` early return that the code
performs.  Results are narrowed to u128 with saturation. -/
def cal_pool_unit_spec_formula (P F R f r : ℕ) : ℕ × ℕ :=
  if f = 0 ∧ r = 0 then (0, 0)
  else if F + f = 0 then (0, 0)
  else if R + r = 0 then (0, 0)
  else if F = 0 ∨ R = 0 then (f, f)
  else
    let raw := P * (F * r + f * R) / (2 * R * F)
    if raw = 0 then (0, 0)
    else
      let a := if F * r > f * R then F * r - f * R else f * R - F * r
      let adj := raw * a / ((f + F) * (r + R))
      let add := raw - adj
      (safe_to_u128 (P + add), safe_to_u128 add)

/-- The swap formula exactly as the spec words it, in plain `Nat` arithmetic:
`y = x·X·Y/(x+X)^2`, `fee = x^2·Y/(x+X)^2`, `(0,0)` when any operand is zero,
results narrowed to u128 with saturation. -/
def cal_swap_result_spec_formula (F R x : ℕ) (input_is_fis : Bool) : ℕ × ℕ :=
  if F = 0 ∨ R = 0 ∨ x = 0 then (0, 0)
  else
    let X := if input_is_fis then F else R
    let Y := if input_is_fis then R else F
    (safe_to_u128 (x * X * Y / ((x + X) * (x + X))),
     safe_to_u128 (x * x * Y / ((x + X) * (x + X))))

/-- The remove formula exactly as the spec words it, in plain `Nat`
arithmetic: clamp `u ← min(u,P)`, `s ← min(s,u)` against the original
`rm_unit`, then proportional withdrawals and the swap-leg amount. -/
def cal_remove_result_spec_formula (P rm swap F R : ℕ) (input_is_fis : Bool) : ℕ × ℕ × ℕ :=
  if P = 0 ∨ rm = 0 then (0, 0, 0)
  else
    let u := if rm > P then P else rm
    let s := if swap > rm then rm else swap
    (safe_to_u128 (u * F / P), safe_to_u128 (u * R / P),
     safe_to_u128 (if input_is_fis then s * F / P else s * R / P))

/-! ## Saturation lemmas: under u128-bounded operands the 512-bit saturating
operations never saturate, so the kernel computes the pure formulas. -/

theorem satMul512_of_le {a b : ℕ} (h : a * b ≤ U512_MAX) : satMul512 a b = a * b :=
  min_eq_left h

theorem satAdd512_of_le {a b : ℕ} (h : a + b ≤ U512_MAX) : satAdd512 a b = a + b :=
  min_eq_left h

theorem safe_to_u128_of_le {n : ℕ} (h : n ≤ U128_MAX) : safe_to_u128 n = n := by
  unfold safe_to_u128; split <;> omega

theorem safe_to_u128_le (n : ℕ) : safe_to_u128 n ≤ n := by
  unfold safe_to_u128; split <;> omega

theorem U128_MAX_lt_two_pow : U128_MAX < 2 ^ 128 := by
  have h : 0 < (2:ℕ) ^ 128 := pow_pos (by norm_num) 128
  unfold U128_MAX; omega

theorem satAdd128_eq_zero_iff {a b : ℕ} : satAdd128 a b = 0 ↔ a + b = 0 := by
  have h : 0 < (2:ℕ) ^ 128 := pow_pos (by norm_num) 128
  unfold satAdd128 U128_MAX
  rcases Nat.le_total (a + b) (2 ^ 128 - 1) with h' | h'
  · simp [Nat.min_eq_left h']
  · rw [Nat.min_eq_right h']; omega

theorem U128_MAX_sq_le : U128_MAX * U128_MAX ≤ U512_MAX := by
  have h1 : U128_MAX * U128_MAX < 2 ^ 128 * 2 ^ 128 :=
    mul_lt_mul'' U128_MAX_lt_two_pow U128_MAX_lt_two_pow (Nat.zero_le _) (Nat.zero_le _)
  have h2 : (2:ℕ) ^ 128 * 2 ^ 128 = 2 ^ (128 + 128) := (pow_add 2 128 128).symm
  have h3 : (2:ℕ) ^ (128 + 128) ≤ 2 ^ 512 := Nat.pow_le_pow_right (by norm_num) (by norm_num)
  unfold U512_MAX; omega

theorem U128_MAX_cube_double_le : 2 * (U128_MAX * U128_MAX * U128_MAX) ≤ U512_MAX := by
  have h0 := U128_MAX_lt_two_pow
  have h1 : U128_MAX * U128_MAX * U128_MAX < 2 ^ 128 * 2 ^ 128 * 2 ^ 128 :=
    mul_lt_mul'' (mul_lt_mul'' h0 h0 (Nat.zero_le _) (Nat.zero_le _)) h0
      (Nat.zero_le _) (Nat.zero_le _)
  have h2 : (2:ℕ) * (2 ^ 128 * 2 ^ 128 * 2 ^ 128) = 2 ^ (1 + 128 + 128 + 128) := by
    rw [pow_add, pow_add, pow_add, pow_one]; ring
  have h3 : (2:ℕ) ^ (1 + 128 + 128 + 128) ≤ 2 ^ 512 :=
    Nat.pow_le_pow_right (by norm_num) (by norm_num)
  have h4 : 2 * (U128_MAX * U128_MAX * U128_MAX) < 2 * (2 ^ 128 * 2 ^ 128 * 2 ^ 128) := by
    omega
  unfold U512_MAX; omega

theorem U128_MAX_pow4_le : U128_MAX * U128_MAX * (U128_MAX * U128_MAX) ≤ U512_MAX := by
  have h0 := U128_MAX_lt_two_pow
  have hsq : U128_MAX * U128_MAX < 2 ^ 128 * 2 ^ 128 :=
    mul_lt_mul'' h0 h0 (Nat.zero_le _) (Nat.zero_le _)
  have h1 : U128_MAX * U128_MAX * (U128_MAX * U128_MAX) <
      2 ^ 128 * 2 ^ 128 * (2 ^ 128 * 2 ^ 128) :=
    mul_lt_mul'' hsq hsq (Nat.zero_le _) (Nat.zero_le _)
  have h2 : (2:ℕ) ^ 128 * 2 ^ 128 * (2 ^ 128 * 2 ^ 128) = 2 ^ (128 + 128 + (128 + 128)) := by
    rw [← pow_add, ← pow_add]
  have h3 : (2:ℕ) ^ (128 + 128 + (128 + 128)) ≤ 2 ^ 512 :=
    Nat.pow_le_pow_right (by norm_num) (by norm_num)
  unfold U512_MAX; omega

theorem mul_le_U512 {a b : ℕ} (ha : a ≤ U128_MAX) (hb : b ≤ U128_MAX) :
    a * b ≤ U512_MAX :=
  le_trans (Nat.mul_le_mul ha hb) U128_MAX_sq_le

theorem four_le_U128_MAX : 4 ≤ U128_MAX := by
  have h : (2:ℕ) ^ 2 ≤ 2 ^ 128 := Nat.pow_le_pow_right (by norm_num) (by norm_num)
  have h2 : (2:ℕ) ^ 2 = 4 := by norm_num
  unfold U128_MAX; omega

theorem add_le_U512 {a b : ℕ} (ha : a ≤ U128_MAX) (hb : b ≤ U128_MAX) :
    a + b ≤ U512_MAX := by
  have h4 := four_le_U128_MAX
  have hsq := U128_MAX_sq_le
  have : a + b ≤ 2 * U128_MAX := by omega
  have : 2 * U128_MAX ≤ U128_MAX * U128_MAX :=
    Nat.mul_le_mul_right _ (by omega)
  omega

theorem mul3_le_U512 {a b c : ℕ} (ha : a ≤ U128_MAX) (hb : b ≤ U128_MAX)
    (hc : c ≤ U128_MAX) : a * b * c ≤ U512_MAX := by
  have h1 : a * b * c ≤ U128_MAX * U128_MAX * U128_MAX :=
    Nat.mul_le_mul (Nat.mul_le_mul ha hb) hc
  have h2 := U128_MAX_cube_double_le
  omega

theorem add_mul_add_le_U512 {a b c d : ℕ} (ha : a ≤ U128_MAX) (hb : b ≤ U128_MAX)
    (hc : c ≤ U128_MAX) (hd : d ≤ U128_MAX) : (a + b) * (c + d) ≤ U512_MAX := by
  have h4 := four_le_U128_MAX
  have h1 : (a + b) * (c + d) ≤ (2 * U128_MAX) * (2 * U128_MAX) :=
    Nat.mul_le_mul (by omega) (by omega)
  have h2 : (2 * U128_MAX) * (2 * U128_MAX) = 4 * U128_MAX * U128_MAX := by ring
  have h3 : 4 * U128_MAX * U128_MAX ≤ U128_MAX * U128_MAX * U128_MAX :=
    Nat.mul_le_mul_right _ (Nat.mul_le_mul_right _ h4)
  have h5 := U128_MAX_cube_double_le
  omega

/-- `cal_swap_result` computes the spec's pure swap formula: for u128-bounded
operands no 512-bit saturation happens. -/
theorem cal_swap_result_eq {F R x : ℕ} (hF : F ≤ U128_MAX) (hR : R ≤ U128_MAX)
    (hx : x ≤ U128_MAX) (b : Bool) :
    cal_swap_result F R x b = cal_swap_result_spec_formula F R x b := by
  simp only [cal_swap_result, cal_swap_result_spec_formula]
  by_cases h0 : F = 0 ∨ R = 0 ∨ x = 0
  · rw [if_pos h0, if_pos h0]
  · rw [if_neg h0, if_neg h0]
    push_neg at h0
    obtain ⟨hF0, hR0, hx0⟩ := h0
    have hXM : (if b then F else R) ≤ U128_MAX := by split <;> assumption
    have hYM : (if b then R else F) ≤ U128_MAX := by split <;> assumption
    have ht : satAdd512 x (if b then F else R) = x + (if b then F else R) :=
      satAdd512_of_le (add_le_U512 hx hXM)
    have htpos : (x + (if b then F else R)) * (x + (if b then F else R)) ≠ 0 := by
      have : x ≠ 0 := hx0
      positivity
    rw [ht, satMul512_of_le (add_mul_add_le_U512 hx hXM hx hXM),
      satMul512_of_le (mul_le_U512 hx hXM),
      satMul512_of_le (mul3_le_U512 hx hXM hYM),
      satMul512_of_le (mul_le_U512 hx hx),
      satMul512_of_le (mul3_le_U512 hx hx hYM)]
    unfold checkedDiv
    rw [if_neg htpos, if_neg htpos]

/-- `cal_remove_result` computes the spec's pure remove formula. -/
theorem cal_remove_result_eq {P rm swap F R : ℕ} (hP : P ≤ U128_MAX) (hF : F ≤ U128_MAX)
    (hR : R ≤ U128_MAX) (hrm : rm ≤ U128_MAX) (hswap : swap ≤ U128_MAX) (b : Bool) :
    cal_remove_result P rm swap F R b = cal_remove_result_spec_formula P rm swap F R b := by
  simp only [cal_remove_result, cal_remove_result_spec_formula]
  by_cases h0 : P = 0 ∨ rm = 0
  · rw [if_pos h0, if_pos h0]
  · rw [if_neg h0, if_neg h0]
    push_neg at h0; obtain ⟨hP0, _⟩ := h0
    have hu : (if rm > P then P else rm) ≤ U128_MAX := by split <;> assumption
    have hs : (if swap > rm then rm else swap) ≤ U128_MAX := by split <;> assumption
    rw [satMul512_of_le (mul_le_U512 hu hF), satMul512_of_le (mul_le_U512 hu hR),
      satMul512_of_le (mul_le_U512 hs hF), satMul512_of_le (mul_le_U512 hs hR)]
    unfold checkedDiv
    simp only [if_neg hP0]

/-- One is below `u128::MAX`. -/
theorem one_le_U128_MAX : 1 ≤ U128_MAX := by
  have := four_le_U128_MAX; omega

/-- Key overflow bound for the slip adjustment: `raw · |F·r − f·R|` stays
below the 512-bit cap for u128-bounded operands. -/
theorem pool_raw_mul_abs_le {P F R f r : ℕ} (hP : P ≤ U128_MAX) (hF : F ≤ U128_MAX)
    (hR : R ≤ U128_MAX) (hf : f ≤ U128_MAX) (hr : r ≤ U128_MAX)
    (hF0 : F ≠ 0) (hR0 : R ≠ 0) :
    (P * (F * r + f * R) / (2 * R * F)) *
      (if F * r > f * R then F * r - f * R else f * R - F * r) ≤ U512_MAX := by
  have hpow4 := U128_MAX_pow4_le
  rcases Nat.le_total (f * R) (F * r) with hc | hc
  · have habs : (if F * r > f * R then F * r - f * R else f * R - F * r) ≤ F * r := by
      split <;> omega
    have hnum : P * (F * r + f * R) ≤ (2 * F) * (P * r) := by
      calc P * (F * r + f * R) ≤ P * (F * r + F * r) := Nat.mul_le_mul_left _ (by omega)
        _ = (2 * F) * (P * r) := by ring
    have hraw : P * (F * r + f * R) / (2 * R * F) ≤ P * r := by
      calc P * (F * r + f * R) / (2 * R * F)
          ≤ (2 * F) * (P * r) / (2 * R * F) := Nat.div_le_div_right hnum
        _ = (2 * F) * (P * r) / ((2 * F) * R) := by rw [show 2 * R * F = (2 * F) * R by ring]
        _ = P * r / R := Nat.mul_div_mul_left _ _
            (Nat.mul_pos (by norm_num) (Nat.pos_of_ne_zero hF0))
        _ ≤ P * r := Nat.div_le_self _ _
    calc (P * (F * r + f * R) / (2 * R * F)) *
          (if F * r > f * R then F * r - f * R else f * R - F * r)
        ≤ (P * r) * (F * r) := Nat.mul_le_mul hraw habs
      _ ≤ (U128_MAX * U128_MAX) * (U128_MAX * U128_MAX) :=
          Nat.mul_le_mul (Nat.mul_le_mul hP hr) (Nat.mul_le_mul hF hr)
      _ ≤ U512_MAX := hpow4
  · have habs : (if F * r > f * R then F * r - f * R else f * R - F * r) ≤ f * R := by
      split <;> omega
    have hnum : P * (F * r + f * R) ≤ (2 * R) * (P * f) := by
      calc P * (F * r + f * R) ≤ P * (f * R + f * R) := Nat.mul_le_mul_left _ (by omega)
        _ = (2 * R) * (P * f) := by ring
    have hraw : P * (F * r + f * R) / (2 * R * F) ≤ P * f := by
      calc P * (F * r + f * R) / (2 * R * F)
          ≤ (2 * R) * (P * f) / (2 * R * F) := Nat.div_le_div_right hnum
        _ = (2 * R) * (P * f) / ((2 * R) * F) := by rw [show 2 * R * F = (2 * R) * F by ring]
        _ = P * f / F := Nat.mul_div_mul_left _ _
            (Nat.mul_pos (by norm_num) (Nat.pos_of_ne_zero hR0))
        _ ≤ P * f := Nat.div_le_self _ _
    calc (P * (F * r + f * R) / (2 * R * F)) *
          (if F * r > f * R then F * r - f * R else f * R - F * r)
        ≤ (P * f) * (f * R) := Nat.mul_le_mul hraw habs
      _ ≤ (U128_MAX * U128_MAX) * (U128_MAX * U128_MAX) :=
          Nat.mul_le_mul (Nat.mul_le_mul hP hf) (Nat.mul_le_mul hf hR)
      _ ≤ U512_MAX := hpow4

/-- The raw unit is at most `U128_MAX ^ 3`. -/
theorem pool_raw_le {P F R f r : ℕ} (hP : P ≤ U128_MAX) (hF : F ≤ U128_MAX)
    (hR : R ≤ U128_MAX) (hf : f ≤ U128_MAX) (hr : r ≤ U128_MAX)
    (hF0 : F ≠ 0) (hR0 : R ≠ 0) :
    P * (F * r + f * R) / (2 * R * F) ≤ U128_MAX * U128_MAX * U128_MAX := by
  have hnum : P * (F * r + f * R) ≤ 2 * (U128_MAX * U128_MAX * U128_MAX) := by
    have h1 : F * r + f * R ≤ 2 * (U128_MAX * U128_MAX) := by
      have := Nat.mul_le_mul hF hr
      have := Nat.mul_le_mul hf hR
      omega
    calc P * (F * r + f * R) ≤ U128_MAX * (2 * (U128_MAX * U128_MAX)) :=
        Nat.mul_le_mul hP h1
      _ = 2 * (U128_MAX * U128_MAX * U128_MAX) := by ring
  have hden : 2 ≤ 2 * R * F := by
    have h1 : 1 ≤ R := Nat.pos_of_ne_zero hR0
    have h2 : 1 ≤ F := Nat.pos_of_ne_zero hF0
    calc 2 = 2 * 1 * 1 := by norm_num
      _ ≤ 2 * R * F := Nat.mul_le_mul (Nat.mul_le_mul (le_refl 2) h1) h2
  calc P * (F * r + f * R) / (2 * R * F)
      ≤ P * (F * r + f * R) / 2 := Nat.div_le_div_left hden (by norm_num)
    _ ≤ 2 * (U128_MAX * U128_MAX * U128_MAX) / 2 := Nat.div_le_div_right hnum
    _ = U128_MAX * U128_MAX * U128_MAX := Nat.mul_div_cancel_left _ (by norm_num)

/-- `cal_pool_unit` computes the spec's pure LP-unit formula (including the
`raw = 0` early return): no 512-bit saturation for u128-bounded operands. -/
theorem cal_pool_unit_eq {P F R f r : ℕ} (hP : P ≤ U128_MAX) (hF : F ≤ U128_MAX)
    (hR : R ≤ U128_MAX) (hf : f ≤ U128_MAX) (hr : r ≤ U128_MAX) :
    cal_pool_unit P F R f r = cal_pool_unit_spec_formula P F R f r := by
  simp only [cal_pool_unit, cal_pool_unit_spec_formula]
  by_cases h1 : f = 0 ∧ r = 0
  · rw [if_pos h1, if_pos h1]
  rw [if_neg h1, if_neg h1]
  by_cases h2 : F + f = 0
  · rw [if_pos (satAdd128_eq_zero_iff.mpr h2), if_pos h2]
  rw [if_neg (fun hh => h2 (satAdd128_eq_zero_iff.mp hh)), if_neg h2]
  by_cases h3 : R + r = 0
  · rw [if_pos (satAdd128_eq_zero_iff.mpr h3), if_pos h3]
  rw [if_neg (fun hh => h3 (satAdd128_eq_zero_iff.mp hh)), if_neg h3]
  by_cases h4 : F = 0 ∨ R = 0
  · rw [if_pos h4, if_pos h4]
  rw [if_neg h4, if_neg h4]
  push_neg at h4; obtain ⟨hF0, hR0⟩ := h4
  have hM1 := one_le_U128_MAX
  have hcube := U128_MAX_cube_double_le
  have hMsq_le_cube : U128_MAX * U128_MAX ≤ U128_MAX * U128_MAX * U128_MAX :=
    Nat.le_mul_of_pos_right _ (by omega)
  have hM_le_sq : U128_MAX ≤ U128_MAX * U128_MAX := Nat.le_mul_of_pos_right _ (by omega)
  have hM_le_cube : U128_MAX ≤ U128_MAX * U128_MAX * U128_MAX :=
    le_trans hM_le_sq hMsq_le_cube
  have e1 : satMul512 F r = F * r := satMul512_of_le (mul_le_U512 hF hr)
  have e2 : satMul512 f R = f * R := satMul512_of_le (mul_le_U512 hf hR)
  have hFr : F * r ≤ U128_MAX * U128_MAX := Nat.mul_le_mul hF hr
  have hfR : f * R ≤ U128_MAX * U128_MAX := Nat.mul_le_mul hf hR
  have hsum_le : F * r + f * R ≤ U512_MAX := by omega
  have e3 : satAdd512 (F * r) (f * R) = F * r + f * R := satAdd512_of_le hsum_le
  have hPnum : P * (F * r + f * R) ≤ 2 * (U128_MAX * U128_MAX * U128_MAX) := by
    have h1 : P * (F * r + f * R) ≤ U128_MAX * (F * r + f * R) :=
      Nat.mul_le_mul_right _ hP
    have h2 : U128_MAX * (F * r + f * R) ≤
        U128_MAX * (U128_MAX * U128_MAX + U128_MAX * U128_MAX) :=
      Nat.mul_le_mul_left _ (by omega)
    have h3 : U128_MAX * (U128_MAX * U128_MAX + U128_MAX * U128_MAX) =
        2 * (U128_MAX * U128_MAX * U128_MAX) := by ring
    omega
  have hPnum' : P * (F * r + f * R) ≤ U512_MAX := by omega
  have e4 : satMul512 P (F * r + f * R) = P * (F * r + f * R) := satMul512_of_le hPnum'
  have e5 : satMul512 R F = R * F := satMul512_of_le (mul_le_U512 hR hF)
  have hRF : R * F ≤ U128_MAX * U128_MAX := Nat.mul_le_mul hR hF
  have hden_le : R * F * 2 ≤ U512_MAX := by omega
  have e6 : satMul512 (R * F) 2 = R * F * 2 := satMul512_of_le hden_le
  rw [e1, e2, e3, e4, e5, e6]
  have hden0 : R * F * 2 ≠ 0 := by
    have := Nat.pos_of_ne_zero hF0
    have := Nat.pos_of_ne_zero hR0
    positivity
  unfold checkedDiv
  rw [if_neg hden0, show R * F * 2 = 2 * R * F by ring]
  have hrawle := pool_raw_le hP hF hR hf hr hF0 hR0
  have habsle := pool_raw_mul_abs_le hP hF hR hf hr hF0 hR0
  set raw := P * (F * r + f * R) / (2 * R * F) with hraw_def
  by_cases hraw : raw = 0
  · rw [if_pos hraw, if_pos hraw]
  rw [if_neg hraw, if_neg hraw]
  have eadd1 : satAdd512 f F = f + F := satAdd512_of_le (add_le_U512 hf hF)
  have eadd2 : satAdd512 r R = r + R := satAdd512_of_le (add_le_U512 hr hR)
  have emul : satMul512 (f + F) (r + R) = (f + F) * (r + R) :=
    satMul512_of_le (add_mul_add_le_U512 hf hF hr hR)
  rw [eadd1, eadd2, emul]
  set A := (if F * r > f * R then F * r - f * R else f * R - F * r) with hA_def
  have eabs : satMul512 raw A = raw * A := satMul512_of_le habsle
  have hadjden0 : (f + F) * (r + R) ≠ 0 := by
    have := Nat.pos_of_ne_zero hF0
    have := Nat.pos_of_ne_zero hR0
    positivity
  rw [eabs, if_neg hadjden0]
  by_cases habs : A ≠ 0
  · rw [if_pos habs]
    have hsub : raw - raw * A / ((f + F) * (r + R)) ≤ U128_MAX * U128_MAX * U128_MAX :=
      le_trans (Nat.sub_le _ _) hrawle
    have hPadd : P + (raw - raw * A / ((f + F) * (r + R))) ≤ U512_MAX := by omega
    rw [satAdd512_of_le hPadd]
  · rw [if_neg habs]
    push_neg at habs
    rw [habs, Nat.mul_zero, Nat.zero_div, Nat.sub_zero]
    have hPadd : P + raw ≤ U512_MAX := by omega
    rw [satAdd512_of_le hPadd]

/-! ## Swap engine state and extrinsics

The embedding is per-symbol: `SwapState` holds the (optional) pool stored
under the fixed symbol, the calling account's balances and LP units, and the
pallet account's custodied balances.  The external currency modules
(`T::Currency`, `T::RCurrency`, `T::LpCurrency`) are interfaces; a transfer
moves the amount and fails when the payer's balance is insufficient. -/

/-- `SwapPool` storage value (`models.rs`); the symbol tag is an opaque `Nat`. -/
structure SwapPool where
  symbol : ℕ
  fis_balance : ℕ
  rtoken_balance : ℕ
  total_unit : ℕ
deriving DecidableEq, Repr

/-- Per-symbol slice of the chain state seen by the swap pallet. -/
structure SwapState where
  pool : Option SwapPool
  user_fis : ℕ
  user_rtoken : ℕ
  user_lp : ℕ
  pallet_fis : ℕ
  pallet_rtoken : ℕ
deriving DecidableEq, Repr

/-- `decl_error!` enum of the swap pallet, plus `TransferFailed` for a failure
inside an external currency transfer. -/
inductive SwapError where
  | AmountZero
  | AmountAllZero
  | PoolAlreadyExist
  | PoolNotExist
  | UserRTokenAmountNotEnough
  | UserFisAmountNotEnough
  | PoolFisBalanceNotEnough
  | PoolRTokenBalanceNotEnough
  | UnitAmountImproper
  | NoGuardPool
  | SwapAmountTooFew
  | LessThanMinOutAmount
  | TransferFailed
deriving DecidableEq, Repr

/-- Extrinsic `swap` (source lines 85-122). -/
def swap (st : SwapState) (input_amount min_out_amount : ℕ) (input_is_fis : Bool) :
    Except SwapError SwapState :=
  match st.pool with
  | none => .error .PoolNotExist
  | some pool =>
    if input_amount > 0 ∧ min_out_amount > 0 then
      let rf := cal_swap_result pool.fis_balance pool.rtoken_balance input_amount input_is_fis
      if rf.1 > 0 then
        if rf.1 ≥ min_out_amount then
          if input_is_fis then
            if st.user_fis > input_amount then
              if rf.1 < pool.rtoken_balance then
                if st.pallet_rtoken ≥ rf.1 then
                  .ok { st with
                    user_fis := st.user_fis - input_amount,
                    pallet_fis := st.pallet_fis + input_amount,
                    pallet_rtoken := st.pallet_rtoken - rf.1,
                    user_rtoken := st.user_rtoken + rf.1,
                    pool := some { pool with
                      fis_balance := satAdd128 pool.fis_balance input_amount,
                      rtoken_balance := pool.rtoken_balance - rf.1 } }
                else .error .TransferFailed
              else .error .PoolRTokenBalanceNotEnough
            else .error .UserFisAmountNotEnough
          else
            if st.user_rtoken ≥ input_amount then
              if rf.1 < pool.fis_balance then
                if st.pallet_fis ≥ rf.1 then
                  .ok { st with
                    pallet_fis := st.pallet_fis - rf.1,
                    user_fis := st.user_fis + rf.1,
                    user_rtoken := st.user_rtoken - input_amount,
                    pallet_rtoken := st.pallet_rtoken + input_amount,
                    pool := some { pool with
                      rtoken_balance := satAdd128 pool.rtoken_balance input_amount,
                      fis_balance := pool.fis_balance - rf.1 } }
                else .error .TransferFailed
              else .error .PoolFisBalanceNotEnough
            else .error .UserRTokenAmountNotEnough
        else .error .LessThanMinOutAmount
      else .error .SwapAmountTooFew
    else .error .AmountZero

/-- Extrinsic `add_liquidity` (source lines 126-150). -/
def add_liquidity (st : SwapState) (rtoken_amount fis_amount : ℕ) :
    Except SwapError SwapState :=
  match st.pool with
  | none => .error .PoolNotExist
  | some pool =>
    if fis_amount > 0 ∨ rtoken_amount > 0 then
      if st.user_rtoken ≥ rtoken_amount then
        if st.user_fis > fis_amount then
          let tu := cal_pool_unit pool.total_unit pool.fis_balance pool.rtoken_balance
            fis_amount rtoken_amount
          .ok { st with
            user_fis := st.user_fis - fis_amount,
            pallet_fis := st.pallet_fis + fis_amount,
            user_rtoken := st.user_rtoken - rtoken_amount,
            pallet_rtoken := st.pallet_rtoken + rtoken_amount,
            user_lp := st.user_lp + tu.2,
            pool := some { pool with
              total_unit := tu.1,
              fis_balance := satAdd128 pool.fis_balance fis_amount,
              rtoken_balance := satAdd128 pool.rtoken_balance rtoken_amount } }
        else .error .UserFisAmountNotEnough
      else .error .UserRTokenAmountNotEnough
    else .error .AmountAllZero

/-- Extrinsic `remove_liquidity` (source lines 154-201). -/
def remove_liquidity (st : SwapState) (rm_unit swap_unit : ℕ) (input_is_fis : Bool) :
    Except SwapError SwapState :=
  match st.pool with
  | none => .error .PoolNotExist
  | some pool =>
    let lp_unit := st.user_lp
    let pool_fis_balance := st.pallet_fis
    let pool_rtoken_balance := st.pallet_rtoken
    if rm_unit > 0 ∧ rm_unit ≤ lp_unit ∧ rm_unit ≥ swap_unit then
      let r3 := cal_remove_result pool.total_unit rm_unit swap_unit
        pool.fis_balance pool.rtoken_balance input_is_fis
      let pool1 : SwapPool := { pool with
        total_unit := pool.total_unit - rm_unit,
        fis_balance := pool.fis_balance - r3.1,
        rtoken_balance := pool.rtoken_balance - r3.2.1 }
      let step :=
        if r3.2.2 > 0 then
          let sr := (cal_swap_result pool1.fis_balance pool1.rtoken_balance
            r3.2.2 input_is_fis).1
          if input_is_fis then
            ({ pool1 with
                fis_balance := satAdd128 pool1.fis_balance r3.2.2,
                rtoken_balance := pool1.rtoken_balance - sr },
              r3.1 - r3.2.2, satAdd128 r3.2.1 sr)
          else
            ({ pool1 with
                rtoken_balance := satAdd128 pool1.rtoken_balance r3.2.2,
                fis_balance := pool1.fis_balance - sr },
              satAdd128 r3.1 sr, r3.2.1 - r3.2.2)
        else (pool1, r3.1, r3.2.1)
      if pool_fis_balance ≥ step.2.1 then
        if pool_rtoken_balance ≥ step.2.2 then
          .ok { st with
            pallet_fis := st.pallet_fis - step.2.1,
            user_fis := st.user_fis + step.2.1,
            pallet_rtoken := st.pallet_rtoken - step.2.2,
            user_rtoken := st.user_rtoken + step.2.2,
            user_lp := st.user_lp - rm_unit,
            pool := some step.1 }
        else .error .PoolRTokenBalanceNotEnough
      else .error .PoolFisBalanceNotEnough
    else .error .UnitAmountImproper

/-- Extrinsic `create_pool` (source lines 205-230); origin is root, `who`
is the funding account (the single user account of the embedding). -/
def create_pool (st : SwapState) (symbol rtoken_amount fis_amount : ℕ) :
    Except SwapError SwapState :=
  match st.pool with
  | some _ => .error .PoolAlreadyExist
  | none =>
    if fis_amount > 0 ∧ rtoken_amount > 0 then
      if st.user_rtoken ≥ rtoken_amount then
        if st.user_fis > fis_amount then
          let pl := cal_pool_unit 0 0 0 fis_amount rtoken_amount
          .ok { st with
            user_fis := st.user_fis - fis_amount,
            pallet_fis := st.pallet_fis + fis_amount,
            user_rtoken := st.user_rtoken - rtoken_amount,
            pallet_rtoken := st.pallet_rtoken + rtoken_amount,
            user_lp := st.user_lp + pl.2,
            pool := some (SwapPool.mk symbol fis_amount rtoken_amount pl.1) }
        else .error .UserFisAmountNotEnough
      else .error .UserRTokenAmountNotEnough
    else .error .AmountZero

/-- The spec's pool invariant: `total_unit = 0 ⇔ fis_balance = 0 ⇔
rtoken_balance = 0`. -/
def pool_invariant (p : SwapPool) : Prop :=
  (p.total_unit = 0 ↔ p.fis_balance = 0) ∧ (p.total_unit = 0 ↔ p.rtoken_balance = 0)

instance (p : SwapPool) : Decidable (pool_invariant p) := by
  unfold pool_invariant; infer_instance

/-! ## Claim theorems for the arithmetic kernel and the pool invariant -/

/-- C1: the claimed invariant `total_unit = 0 ⇔ fis_balance = 0 ⇔
rtoken_balance = 0` is NOT preserved by the code: starting from the pool
`{fis 1, rtoken 1, unit 1}` (which satisfies the invariant) the successful
call `add_liquidity(rtoken_amount = 0, fis_amount = 1)` stores the pool
`{fis 2, rtoken 1, unit 0}`, because `cal_pool_unit` truncates the raw unit
to `0` and `add_liquidity` overwrites `total_unit` with it unguarded. -/
theorem add_liquidity_breaks_pool_invariant :
    pool_invariant (SwapPool.mk 0 1 1 1) ∧
    add_liquidity (SwapState.mk (some (SwapPool.mk 0 1 1 1)) 10 10 1 1 1) 0 1 =
      .ok (SwapState.mk (some (SwapPool.mk 0 2 1 0)) 9 10 1 2 1) ∧
    ¬ pool_invariant (SwapPool.mk 0 2 1 0) := by
  refine ⟨by decide, by rfl, by decide⟩

/-- C10: on the pool `{fis 3, rtoken 3, unit 1}` the deposit
`(fis_amount, rtoken_amount) = (1, 1) ≠ (0, 0)` makes `add_liquidity` succeed
while minting zero LP units (the raw unit `1·(3·1+1·3)/(2·3·3) = 6/18`
truncates to zero), yet both deposits are transferred from the caller to the
pallet account; no error guards against the zero LP-unit output. -/
theorem add_liquidity_zero_lp_units :
    add_liquidity (SwapState.mk (some (SwapPool.mk 0 3 3 1)) 10 10 5 3 3) 1 1 =
      .ok (SwapState.mk (some (SwapPool.mk 0 4 4 0)) 9 9 5 4 4) ∧
    (SwapState.mk (some (SwapPool.mk 0 4 4 0)) 9 9 5 4 4).user_lp =
      (SwapState.mk (some (SwapPool.mk 0 3 3 1)) 10 10 5 3 3).user_lp ∧
    (SwapState.mk (some (SwapPool.mk 0 4 4 0)) 9 9 5 4 4).user_fis + 1 =
      (SwapState.mk (some (SwapPool.mk 0 3 3 1)) 10 10 5 3 3).user_fis ∧
    (SwapState.mk (some (SwapPool.mk 0 4 4 0)) 9 9 5 4 4).user_rtoken + 1 =
      (SwapState.mk (some (SwapPool.mk 0 3 3 1)) 10 10 5 3 3).user_rtoken := by
  refine ⟨by rfl, by decide, by decide, by decide⟩

/-- C2 counterexample: at `(P, F, R, f, r) = (1, 1, 1, 1, 0)` the claimed
formula gives `raw = 1·(1·0+1·1)/(2·1·1) = 0`, `a = 1`, `adj = 0`,
`add = 0`, hence the claim predicts the return value `(P + add, add) = (1, 0)`;
the code instead hits the `raw_unit.is_zero()` early return and yields
`(0, 0)`. -/
theorem cal_pool_unit_claim_counterexample :
    cal_pool_unit 1 1 1 1 0 = (0, 0) ∧
    (1 + (1 * (1 * 0 + 1 * 1) / (2 * 1 * 1) -
        1 * (1 * 0 + 1 * 1) / (2 * 1 * 1) * (1 * 1 - 1 * 0) / ((1 + 1) * (0 + 1))),
      1 * (1 * 0 + 1 * 1) / (2 * 1 * 1) -
        1 * (1 * 0 + 1 * 1) / (2 * 1 * 1) * (1 * 1 - 1 * 0) / ((1 + 1) * (0 + 1)))
      = ((1 : ℕ), (0 : ℕ)) ∧
    cal_pool_unit 1 1 1 1 0 ≠ ((1 : ℕ), (0 : ℕ)) := by
  refine ⟨by decide, by decide, by decide⟩

/-- C2 (amended): for u128-bounded operands `cal_pool_unit` returns exactly
the claim's case analysis — `(0,0)` on the zero cases, `(f, f)` on bootstrap,
and otherwise, with `raw = ⌊P(Fr+fR)/(2RF)⌋`, `a = |Fr − fR|`,
`adj = ⌊raw·a/((f+F)(r+R))⌋`, `add = raw − adj`: the pair
`(P + add, add)` narrowed to u128 with saturation, EXCEPT that when
`raw = 0` it returns `(0, 0)`. -/
theorem cal_pool_unit_spec_correct {P F R f r : ℕ} (hP : P ≤ U128_MAX)
    (hF : F ≤ U128_MAX) (hR : R ≤ U128_MAX) (hf : f ≤ U128_MAX) (hr : r ≤ U128_MAX) :
    cal_pool_unit P F R f r = cal_pool_unit_spec_formula P F R f r :=
  cal_pool_unit_eq hP hF hR hf hr

/-- Witness for C2's amended theorem at `(P,F,R,f,r) = (3,4,5,6,7)`. -/
theorem cal_pool_unit_spec_correct_witness :
    3 ≤ U128_MAX ∧ 4 ≤ U128_MAX ∧ 5 ≤ U128_MAX ∧ 6 ≤ U128_MAX ∧ 7 ≤ U128_MAX ∧
    cal_pool_unit 3 4 5 6 7 = cal_pool_unit_spec_formula 3 4 5 6 7 :=
  ⟨by decide, by decide, by decide, by decide, by decide,
    cal_pool_unit_spec_correct (by decide) (by decide) (by decide) (by decide) (by decide)⟩

/-- C3: `cal_swap_result` returns `(0,0)` whenever the input-side reserve,
the output-side reserve or the input is zero, and otherwise
`y = ⌊x·X·Y/(x+X)^2⌋` and `fee = ⌊x^2·Y/(x+X)^2⌋` with `X = fis_balance`,
`Y = rtoken_balance` when `input_is_fis` and the reverse otherwise, each
narrowed to u128 with saturation at `u128::MAX`. -/
theorem cal_swap_result_spec_correct {F R x : ℕ} (hF : F ≤ U128_MAX)
    (hR : R ≤ U128_MAX) (hx : x ≤ U128_MAX) (b : Bool) :
    cal_swap_result F R x b = cal_swap_result_spec_formula F R x b :=
  cal_swap_result_eq hF hR hx b

/-- Witness for C3 at the spec's S2 scenario `(F, R, x) = (1000, 1000, 100)`. -/
theorem cal_swap_result_spec_correct_witness :
    1000 ≤ U128_MAX ∧ 100 ≤ U128_MAX ∧
    cal_swap_result 1000 1000 100 true = cal_swap_result_spec_formula 1000 1000 100 true ∧
    cal_swap_result 1000 1000 100 true = (82, 8) :=
  ⟨by decide, by decide,
    cal_swap_result_spec_correct (by decide) (by decide) (by decide) true, by decide⟩

/-! ## C4: swap never decreases the product of reserves -/

/-- The truncated swap output times the squared denominator is bounded by the
numerator (fis-input direction). -/
theorem swap_y_mul_bound_fis {F R x : ℕ} (hF : F ≤ U128_MAX) (hR : R ≤ U128_MAX)
    (hx : x ≤ U128_MAX) :
    (cal_swap_result F R x true).1 * ((x + F) * (x + F)) ≤ x * F * R := by
  rw [cal_swap_result_eq hF hR hx true]
  unfold cal_swap_result_spec_formula
  by_cases h0 : F = 0 ∨ R = 0 ∨ x = 0
  · rw [if_pos h0]; simp
  · rw [if_neg h0]
    simp only [if_true]
    calc safe_to_u128 (x * F * R / ((x + F) * (x + F))) * ((x + F) * (x + F))
        ≤ (x * F * R / ((x + F) * (x + F))) * ((x + F) * (x + F)) :=
          Nat.mul_le_mul_right _ (safe_to_u128_le _)
      _ ≤ x * F * R := Nat.div_mul_le_self _ _

/-- The truncated swap output times the squared denominator is bounded by the
numerator (rtoken-input direction). -/
theorem swap_y_mul_bound_rtoken {F R x : ℕ} (hF : F ≤ U128_MAX) (hR : R ≤ U128_MAX)
    (hx : x ≤ U128_MAX) :
    (cal_swap_result F R x false).1 * ((x + R) * (x + R)) ≤ x * R * F := by
  rw [cal_swap_result_eq hF hR hx false]
  unfold cal_swap_result_spec_formula
  by_cases h0 : F = 0 ∨ R = 0 ∨ x = 0
  · rw [if_pos h0]; simp
  · rw [if_neg h0]
    simp only [Bool.false_eq_true, if_false]
    calc safe_to_u128 (x * R * F / ((x + R) * (x + R))) * ((x + R) * (x + R))
        ≤ (x * R * F / ((x + R) * (x + R))) * ((x + R) * (x + R)) :=
          Nat.mul_le_mul_right _ (safe_to_u128_le _)
      _ ≤ x * R * F := Nat.div_mul_le_self _ _

/-- The constant-product inequality behind C4: if the truncated output `y`
satisfies `y·(x+F)^2 ≤ x·F·R` and `y < R`, then `(F+x)(R−y) ≥ F·R`. -/
theorem k_ineq {F R x y : ℕ} (hyR : y < R)
    (hkey : y * ((x + F) * (x + F)) ≤ x * F * R) :
    F * R ≤ (F + x) * (R - y) := by
  rcases Nat.eq_zero_or_pos (x + F) with h0 | h0
  · have hF0 : F = 0 := by omega
    simp [hF0]
  · have h2 : x * F * R ≤ (x * R) * (x + F) := by
      calc x * F * R = (x * R) * F := by ring
        _ ≤ (x * R) * (x + F) := Nat.mul_le_mul_left _ (Nat.le_add_left F x)
    have h3 : (y * (x + F)) * (x + F) ≤ (x * R) * (x + F) := by
      calc (y * (x + F)) * (x + F) = y * ((x + F) * (x + F)) := by ring
        _ ≤ x * F * R := hkey
        _ ≤ (x * R) * (x + F) := h2
    have h4 : y * (x + F) ≤ x * R := Nat.le_of_mul_le_mul_right h3 h0
    have h5 : (F + x) * (R - y) + (F + x) * y = (F + x) * R := by
      rw [← Nat.mul_add, Nat.sub_add_cancel (Nat.le_of_lt hyR)]
    have h9 : (F + x) * y ≤ x * R := by
      calc (F + x) * y = y * (x + F) := by ring
        _ ≤ x * R := h4
    have h10 : F * R + (F + x) * y ≤ (F + x) * (R - y) + (F + x) * y := by
      rw [h5]
      calc F * R + (F + x) * y ≤ F * R + x * R := Nat.add_le_add_left h9 _
        _ = (F + x) * R := by ring
    exact Nat.le_of_add_le_add_right h10

/-- C4: for every pool with positive reserves and every successful `swap`
with positive input, the post-state reserves satisfy `F·R ≤ F'·R'`.
The hypotheses `hcf`/`hcr` are the spec's custody invariant (declared
reserves are at most the pallet account's balances) and `hif`/`hir` bound
each asset's total circulating amount by `u128::MAX`; together they rule out
u128 saturation of the incremented reserve. -/
theorem swap_product_nondecreasing
    (st : SwapState) (pool : SwapPool) (x mo : ℕ) (b : Bool) (st' : SwapState)
    (pool' : SwapPool)
    (hp : st.pool = some pool)
    (hF : 0 < pool.fis_balance) (hR : 0 < pool.rtoken_balance) (hx : 0 < x)
    (hcf : pool.fis_balance ≤ st.pallet_fis)
    (hcr : pool.rtoken_balance ≤ st.pallet_rtoken)
    (hif : st.user_fis + st.pallet_fis ≤ U128_MAX)
    (hir : st.user_rtoken + st.pallet_rtoken ≤ U128_MAX)
    (hok : swap st x mo b = .ok st')
    (hp' : st'.pool = some pool') :
    pool.fis_balance * pool.rtoken_balance ≤ pool'.fis_balance * pool'.rtoken_balance := by
  simp only [swap, hp] at hok
  split at hok
  case isFalse => exact Except.noConfusion hok
  case isTrue h1 =>
  split at hok
  case isFalse => exact Except.noConfusion hok
  case isTrue h2 =>
  split at hok
  case isFalse => exact Except.noConfusion hok
  case isTrue h3 =>
  split at hok
  case isTrue hb =>
    subst hb
    split at hok
    case isFalse => exact Except.noConfusion hok
    case isTrue h4 =>
    split at hok
    case isFalse => exact Except.noConfusion hok
    case isTrue h5 =>
    split at hok
    case isFalse => exact Except.noConfusion hok
    case isTrue h6 =>
    injection hok with hok
    subst hok
    injection hp' with hp'
    subst hp'
    show pool.fis_balance * pool.rtoken_balance ≤
      satAdd128 pool.fis_balance x *
        (pool.rtoken_balance - (cal_swap_result pool.fis_balance pool.rtoken_balance x true).1)
    have hxM : x ≤ U128_MAX := by omega
    have hFM : pool.fis_balance ≤ U128_MAX := by omega
    have hRM : pool.rtoken_balance ≤ U128_MAX := by omega
    have hsat : satAdd128 pool.fis_balance x = pool.fis_balance + x := by
      unfold satAdd128; omega
    rw [hsat]
    exact k_ineq h5 (swap_y_mul_bound_fis hFM hRM hxM)
  case isFalse hb =>
    have hb' : b = false := by
      cases b
      · rfl
      · exact absurd rfl hb
    subst hb'
    split at hok
    case isFalse => exact Except.noConfusion hok
    case isTrue h4 =>
    split at hok
    case isFalse => exact Except.noConfusion hok
    case isTrue h5 =>
    split at hok
    case isFalse => exact Except.noConfusion hok
    case isTrue h6 =>
    injection hok with hok
    subst hok
    injection hp' with hp'
    subst hp'
    show pool.fis_balance * pool.rtoken_balance ≤
      (pool.fis_balance - (cal_swap_result pool.fis_balance pool.rtoken_balance x false).1) *
        satAdd128 pool.rtoken_balance x
    have hxM : x ≤ U128_MAX := by omega
    have hFM : pool.fis_balance ≤ U128_MAX := by omega
    have hRM : pool.rtoken_balance ≤ U128_MAX := by omega
    have hsat : satAdd128 pool.rtoken_balance x = pool.rtoken_balance + x := by
      unfold satAdd128; omega
    rw [hsat]
    have hk := k_ineq h5 (swap_y_mul_bound_rtoken hFM hRM hxM)
    calc pool.fis_balance * pool.rtoken_balance
        = pool.rtoken_balance * pool.fis_balance := by ring
      _ ≤ (pool.rtoken_balance + x) *
          (pool.fis_balance - (cal_swap_result pool.fis_balance pool.rtoken_balance x false).1) :=
          hk
      _ = (pool.fis_balance - (cal_swap_result pool.fis_balance pool.rtoken_balance x false).1) *
          (pool.rtoken_balance + x) := by ring


/-! ## C5: remove_liquidity decrements reserves first, then swaps -/

theorem safe_to_u128_mono {a b : ℕ} (h : a ≤ b) :
    safe_to_u128 a ≤ safe_to_u128 b := by
  unfold safe_to_u128; split <;> split <;> omega

theorem safe_to_u128_le_MAX (n : ℕ) : safe_to_u128 n ≤ U128_MAX := by
  unfold safe_to_u128; split <;> omega

/-- The spec's description of `remove_liquidity`'s money movement: compute
the proportional amounts from the PRE-swap reserves, decrement the reserves
by them, then (when the swap-leg amount is positive) run the swap formula on
the ALREADY-DECREMENTED reserves, adding the input to the input-side reserve
and the proceeds to the opposite-side payout while subtracting the input from
the input-side payout.  Returns `(new pool, fis payout, rtoken payout)`. -/
def remove_liquidity_spec_step (pool : SwapPool) (rm swap : ℕ) (input_is_fis : Bool) :
    SwapPool × ℕ × ℕ :=
  let w := cal_remove_result_spec_formula pool.total_unit rm swap
    pool.fis_balance pool.rtoken_balance input_is_fis
  let F1 := pool.fis_balance - w.1
  let R1 := pool.rtoken_balance - w.2.1
  let T1 := pool.total_unit - rm
  if w.2.2 > 0 then
    let y := (cal_swap_result_spec_formula F1 R1 w.2.2 input_is_fis).1
    if input_is_fis then
      (SwapPool.mk pool.symbol (satAdd128 F1 w.2.2) (R1 - y) T1,
        w.1 - w.2.2, satAdd128 w.2.1 y)
    else
      (SwapPool.mk pool.symbol (F1 - y) (satAdd128 R1 w.2.2) T1,
        satAdd128 w.1 y, w.2.1 - w.2.2)
  else (SwapPool.mk pool.symbol F1 R1 T1, w.1, w.2.1)

/-- The remove formula's third component is u128-bounded. -/
theorem cal_remove_formula_third_le (P rm swap F R : ℕ) (b : Bool) :
    (cal_remove_result_spec_formula P rm swap F R b).2.2 ≤ U128_MAX := by
  unfold cal_remove_result_spec_formula
  split
  · simp
  · exact safe_to_u128_le_MAX _

/-- With `swap_unit = rm_unit` the fis withdrawal never exceeds the fis-side
swap input. -/
theorem remove_formula_fis_le (P F R rm : ℕ) :
    (cal_remove_result_spec_formula P rm rm F R true).1 ≤
      (cal_remove_result_spec_formula P rm rm F R true).2.2 := by
  unfold cal_remove_result_spec_formula
  by_cases h0 : P = 0 ∨ rm = 0
  · rw [if_pos h0]
  · rw [if_neg h0]
    show safe_to_u128 ((if rm > P then P else rm) * F / P) ≤
      safe_to_u128 (if true = true then (if rm > rm then rm else rm) * F / P
        else (if rm > rm then rm else rm) * R / P)
    rw [if_pos rfl, ite_self]
    refine safe_to_u128_mono (Nat.div_le_div_right (Nat.mul_le_mul_right _ ?_))
    split <;> omega

/-- With `swap_unit = rm_unit` the rtoken withdrawal never exceeds the
rtoken-side swap input. -/
theorem remove_formula_rtoken_le (P F R rm : ℕ) :
    (cal_remove_result_spec_formula P rm rm F R false).2.1 ≤
      (cal_remove_result_spec_formula P rm rm F R false).2.2 := by
  unfold cal_remove_result_spec_formula
  by_cases h0 : P = 0 ∨ rm = 0
  · rw [if_pos h0]
  · rw [if_neg h0]
    show safe_to_u128 ((if rm > P then P else rm) * R / P) ≤
      safe_to_u128 (if false = true then (if rm > rm then rm else rm) * F / P
        else (if rm > rm then rm else rm) * R / P)
    rw [if_neg (show ¬(false = true) by decide), ite_self]
    refine safe_to_u128_mono (Nat.div_le_div_right (Nat.mul_le_mul_right _ ?_))
    split <;> omega

/-- When the whole removed amount is swapped (`swap_unit = rm_unit`), the
payout on the `input_is_fis` side is exactly zero. -/
theorem remove_spec_input_side_zero (pool : SwapPool) (rm : ℕ) (b : Bool) :
    (if b then (remove_liquidity_spec_step pool rm rm b).2.1
     else (remove_liquidity_spec_step pool rm rm b).2.2) = 0 := by
  cases b
  · have hle := remove_formula_rtoken_le pool.total_unit pool.fis_balance
      pool.rtoken_balance rm
    rw [if_neg (show ¬(false = true) by decide)]
    simp only [remove_liquidity_spec_step]
    by_cases h : (cal_remove_result_spec_formula pool.total_unit rm rm
        pool.fis_balance pool.rtoken_balance false).2.2 > 0
    · rw [if_pos h, if_neg (show ¬(false = true) by decide)]
      show (cal_remove_result_spec_formula pool.total_unit rm rm
        pool.fis_balance pool.rtoken_balance false).2.1 -
        (cal_remove_result_spec_formula pool.total_unit rm rm
          pool.fis_balance pool.rtoken_balance false).2.2 = 0
      omega
    · rw [if_neg h]
      show (cal_remove_result_spec_formula pool.total_unit rm rm
        pool.fis_balance pool.rtoken_balance false).2.1 = 0
      omega
  · have hle := remove_formula_fis_le pool.total_unit pool.fis_balance
      pool.rtoken_balance rm
    rw [if_pos rfl]
    simp only [remove_liquidity_spec_step]
    by_cases h : (cal_remove_result_spec_formula pool.total_unit rm rm
        pool.fis_balance pool.rtoken_balance true).2.2 > 0
    · rw [if_pos h, if_pos trivial]
      show (cal_remove_result_spec_formula pool.total_unit rm rm
        pool.fis_balance pool.rtoken_balance true).1 -
        (cal_remove_result_spec_formula pool.total_unit rm rm
          pool.fis_balance pool.rtoken_balance true).2.2 = 0
      omega
    · rw [if_neg h]
      show (cal_remove_result_spec_formula pool.total_unit rm rm
        pool.fis_balance pool.rtoken_balance true).1 = 0
      omega

/-- Reduction of `remove_liquidity_spec_step` when no internal swap runs. -/
theorem spec_step_si_zero (pool : SwapPool) (rm swap : ℕ) (b : Bool)
    (h : ¬ (cal_remove_result_spec_formula pool.total_unit rm swap
      pool.fis_balance pool.rtoken_balance b).2.2 > 0) :
    remove_liquidity_spec_step pool rm swap b =
      (SwapPool.mk pool.symbol
        (pool.fis_balance - (cal_remove_result_spec_formula pool.total_unit rm swap
          pool.fis_balance pool.rtoken_balance b).1)
        (pool.rtoken_balance - (cal_remove_result_spec_formula pool.total_unit rm swap
          pool.fis_balance pool.rtoken_balance b).2.1)
        (pool.total_unit - rm),
       (cal_remove_result_spec_formula pool.total_unit rm swap
          pool.fis_balance pool.rtoken_balance b).1,
       (cal_remove_result_spec_formula pool.total_unit rm swap
          pool.fis_balance pool.rtoken_balance b).2.1) := by
  unfold remove_liquidity_spec_step
  rw [if_neg h]

/-- Reduction of `remove_liquidity_spec_step` for a fis-input internal swap. -/
theorem spec_step_pos_fis (pool : SwapPool) (rm swap : ℕ)
    (h : (cal_remove_result_spec_formula pool.total_unit rm swap
      pool.fis_balance pool.rtoken_balance true).2.2 > 0) :
    remove_liquidity_spec_step pool rm swap true =
      (SwapPool.mk pool.symbol
        (satAdd128 (pool.fis_balance - (cal_remove_result_spec_formula pool.total_unit rm swap
            pool.fis_balance pool.rtoken_balance true).1)
          (cal_remove_result_spec_formula pool.total_unit rm swap
            pool.fis_balance pool.rtoken_balance true).2.2)
        ((pool.rtoken_balance - (cal_remove_result_spec_formula pool.total_unit rm swap
            pool.fis_balance pool.rtoken_balance true).2.1) -
          (cal_swap_result_spec_formula
            (pool.fis_balance - (cal_remove_result_spec_formula pool.total_unit rm swap
              pool.fis_balance pool.rtoken_balance true).1)
            (pool.rtoken_balance - (cal_remove_result_spec_formula pool.total_unit rm swap
              pool.fis_balance pool.rtoken_balance true).2.1)
            (cal_remove_result_spec_formula pool.total_unit rm swap
              pool.fis_balance pool.rtoken_balance true).2.2 true).1)
        (pool.total_unit - rm),
       (cal_remove_result_spec_formula pool.total_unit rm swap
          pool.fis_balance pool.rtoken_balance true).1 -
        (cal_remove_result_spec_formula pool.total_unit rm swap
          pool.fis_balance pool.rtoken_balance true).2.2,
       satAdd128 (cal_remove_result_spec_formula pool.total_unit rm swap
          pool.fis_balance pool.rtoken_balance true).2.1
        (cal_swap_result_spec_formula
          (pool.fis_balance - (cal_remove_result_spec_formula pool.total_unit rm swap
            pool.fis_balance pool.rtoken_balance true).1)
          (pool.rtoken_balance - (cal_remove_result_spec_formula pool.total_unit rm swap
            pool.fis_balance pool.rtoken_balance true).2.1)
          (cal_remove_result_spec_formula pool.total_unit rm swap
            pool.fis_balance pool.rtoken_balance true).2.2 true).1) := by
  unfold remove_liquidity_spec_step
  rw [if_pos h, if_pos rfl]

/-- Reduction of `remove_liquidity_spec_step` for an rtoken-input internal
swap. -/
theorem spec_step_pos_rtoken (pool : SwapPool) (rm swap : ℕ)
    (h : (cal_remove_result_spec_formula pool.total_unit rm swap
      pool.fis_balance pool.rtoken_balance false).2.2 > 0) :
    remove_liquidity_spec_step pool rm swap false =
      (SwapPool.mk pool.symbol
        ((pool.fis_balance - (cal_remove_result_spec_formula pool.total_unit rm swap
            pool.fis_balance pool.rtoken_balance false).1) -
          (cal_swap_result_spec_formula
            (pool.fis_balance - (cal_remove_result_spec_formula pool.total_unit rm swap
              pool.fis_balance pool.rtoken_balance false).1)
            (pool.rtoken_balance - (cal_remove_result_spec_formula pool.total_unit rm swap
              pool.fis_balance pool.rtoken_balance false).2.1)
            (cal_remove_result_spec_formula pool.total_unit rm swap
              pool.fis_balance pool.rtoken_balance false).2.2 false).1)
        (satAdd128 (pool.rtoken_balance - (cal_remove_result_spec_formula pool.total_unit rm swap
            pool.fis_balance pool.rtoken_balance false).2.1)
          (cal_remove_result_spec_formula pool.total_unit rm swap
            pool.fis_balance pool.rtoken_balance false).2.2)
        (pool.total_unit - rm),
       satAdd128 (cal_remove_result_spec_formula pool.total_unit rm swap
          pool.fis_balance pool.rtoken_balance false).1
        (cal_swap_result_spec_formula
          (pool.fis_balance - (cal_remove_result_spec_formula pool.total_unit rm swap
            pool.fis_balance pool.rtoken_balance false).1)
          (pool.rtoken_balance - (cal_remove_result_spec_formula pool.total_unit rm swap
            pool.fis_balance pool.rtoken_balance false).2.1)
          (cal_remove_result_spec_formula pool.total_unit rm swap
            pool.fis_balance pool.rtoken_balance false).2.2 false).1,
       (cal_remove_result_spec_formula pool.total_unit rm swap
          pool.fis_balance pool.rtoken_balance false).2.1 -
        (cal_remove_result_spec_formula pool.total_unit rm swap
          pool.fis_balance pool.rtoken_balance false).2.2) := by
  unfold remove_liquidity_spec_step
  rw [if_pos h, if_neg (show ¬(false = true) by decide)]

/-- C5: a successful `remove_liquidity` behaves as the spec orders it —
reserves are decremented by the pre-swap proportional amounts, then the
internal swap (input side named by `input_is_fis`) is applied to the
already-decremented reserves, the swap input is subtracted from the payout on
that side and the proceeds are added on the opposite side; and when
`swap_unit = rm_unit` the payout on the `input_is_fis` side is exactly
zero. -/
theorem remove_liquidity_decrement_then_swap
    (st : SwapState) (pool : SwapPool) (rm swap_unit : ℕ) (b : Bool) (st' : SwapState)
    (hp : st.pool = some pool)
    (hTM : pool.total_unit ≤ U128_MAX) (hFM : pool.fis_balance ≤ U128_MAX)
    (hRM : pool.rtoken_balance ≤ U128_MAX) (hrmM : rm ≤ U128_MAX)
    (hswM : swap_unit ≤ U128_MAX)
    (hok : remove_liquidity st rm swap_unit b = .ok st') :
    (st'.pool = some (remove_liquidity_spec_step pool rm swap_unit b).1 ∧
     st'.user_fis = st.user_fis + (remove_liquidity_spec_step pool rm swap_unit b).2.1 ∧
     st'.user_rtoken = st.user_rtoken + (remove_liquidity_spec_step pool rm swap_unit b).2.2 ∧
     st'.user_lp = st.user_lp - rm) ∧
    (swap_unit = rm →
      (if b then (remove_liquidity_spec_step pool rm swap_unit b).2.1
       else (remove_liquidity_spec_step pool rm swap_unit b).2.2) = 0) := by
  simp only [remove_liquidity, hp] at hok
  split at hok
  case isFalse => exact Except.noConfusion hok
  case isTrue h1 =>
  rw [cal_remove_result_eq hTM hFM hRM hrmM hswM b] at hok
  have hF1 : pool.fis_balance -
      (cal_remove_result_spec_formula pool.total_unit rm swap_unit
        pool.fis_balance pool.rtoken_balance b).1 ≤ U128_MAX :=
    le_trans (Nat.sub_le _ _) hFM
  have hR1 : pool.rtoken_balance -
      (cal_remove_result_spec_formula pool.total_unit rm swap_unit
        pool.fis_balance pool.rtoken_balance b).2.1 ≤ U128_MAX :=
    le_trans (Nat.sub_le _ _) hRM
  have hsi := cal_remove_formula_third_le pool.total_unit rm swap_unit
    pool.fis_balance pool.rtoken_balance b
  rw [cal_swap_result_eq hF1 hR1 hsi b] at hok
  split at hok
  case isTrue h2 =>
    split at hok
    case isTrue hb =>
      subst hb
      split at hok
      case isFalse => exact Except.noConfusion hok
      case isTrue h3 =>
      split at hok
      case isFalse => exact Except.noConfusion hok
      case isTrue h4 =>
      injection hok with hok
      subst hok
      refine ⟨⟨?_, ?_, ?_, rfl⟩, ?_⟩
      · rw [spec_step_pos_fis pool rm swap_unit h2]
      · rw [spec_step_pos_fis pool rm swap_unit h2]
      · rw [spec_step_pos_fis pool rm swap_unit h2]
      · intro hsw
        subst hsw
        exact remove_spec_input_side_zero pool swap_unit true
    case isFalse hb =>
      have hb' : b = false := by
        cases b
        · rfl
        · exact absurd rfl hb
      subst hb'
      split at hok
      case isFalse => exact Except.noConfusion hok
      case isTrue h3 =>
      split at hok
      case isFalse => exact Except.noConfusion hok
      case isTrue h4 =>
      injection hok with hok
      subst hok
      refine ⟨⟨?_, ?_, ?_, rfl⟩, ?_⟩
      · rw [spec_step_pos_rtoken pool rm swap_unit h2]
      · rw [spec_step_pos_rtoken pool rm swap_unit h2]
      · rw [spec_step_pos_rtoken pool rm swap_unit h2]
      · intro hsw
        subst hsw
        exact remove_spec_input_side_zero pool swap_unit false
  case isFalse h2 =>
    split at hok
    case isFalse => exact Except.noConfusion hok
    case isTrue h3 =>
    split at hok
    case isFalse => exact Except.noConfusion hok
    case isTrue h4 =>
    injection hok with hok
    subst hok
    refine ⟨⟨?_, ?_, ?_, rfl⟩, ?_⟩
    · rw [spec_step_si_zero pool rm swap_unit b h2]
    · rw [spec_step_si_zero pool rm swap_unit b h2]
    · rw [spec_step_si_zero pool rm swap_unit b h2]
    · intro hsw
      subst hsw
      exact remove_spec_input_side_zero pool swap_unit b

/-- Witness for C5: pool `{fis 100, rtoken 100, unit 100}`, removing 50 units
with `swap_unit = 50` and `input_is_fis = true`; the user receives only
rtoken. -/
theorem remove_liquidity_decrement_then_swap_witness :
    (SwapState.mk (some (SwapPool.mk 0 100 100 100)) 0 0 100 100 100).pool =
      some (SwapPool.mk 0 100 100 100) ∧
    remove_liquidity (SwapState.mk (some (SwapPool.mk 0 100 100 100)) 0 0 100 100 100)
      50 50 true = .ok (SwapState.mk (some (SwapPool.mk 0 100 38 50)) 0 62 50 100 38) ∧
    (((SwapState.mk (some (SwapPool.mk 0 100 38 50)) 0 62 50 100 38).pool =
      some (remove_liquidity_spec_step (SwapPool.mk 0 100 100 100) 50 50 true).1 ∧
     (SwapState.mk (some (SwapPool.mk 0 100 38 50)) 0 62 50 100 38).user_fis =
      (SwapState.mk (some (SwapPool.mk 0 100 100 100)) 0 0 100 100 100).user_fis +
        (remove_liquidity_spec_step (SwapPool.mk 0 100 100 100) 50 50 true).2.1 ∧
     (SwapState.mk (some (SwapPool.mk 0 100 38 50)) 0 62 50 100 38).user_rtoken =
      (SwapState.mk (some (SwapPool.mk 0 100 100 100)) 0 0 100 100 100).user_rtoken +
        (remove_liquidity_spec_step (SwapPool.mk 0 100 100 100) 50 50 true).2.2 ∧
     (SwapState.mk (some (SwapPool.mk 0 100 38 50)) 0 62 50 100 38).user_lp =
      (SwapState.mk (some (SwapPool.mk 0 100 100 100)) 0 0 100 100 100).user_lp - 50) ∧
    ((50 : ℕ) = 50 →
      (if true then (remove_liquidity_spec_step (SwapPool.mk 0 100 100 100) 50 50 true).2.1
       else (remove_liquidity_spec_step (SwapPool.mk 0 100 100 100) 50 50 true).2.2) = 0)) :=
  ⟨by rfl, by rfl,
    remove_liquidity_decrement_then_swap
      (SwapState.mk (some (SwapPool.mk 0 100 100 100)) 0 0 100 100 100)
      (SwapPool.mk 0 100 100 100) 50 50 true
      (SwapState.mk (some (SwapPool.mk 0 100 38 50)) 0 62 50 100 38)
      (by rfl) (by decide) (by decide) (by decide) (by decide) (by decide) (by rfl)⟩


/-- Witness for C4: pool `{fis 1000, rtoken 1000}`, swap of 100 fis. -/
theorem swap_product_nondecreasing_witness :
    (SwapState.mk (some (SwapPool.mk 0 1000 1000 1000)) 200 0 0 1000 1000).pool =
      some (SwapPool.mk 0 1000 1000 1000) ∧
    swap (SwapState.mk (some (SwapPool.mk 0 1000 1000 1000)) 200 0 0 1000 1000) 100 1 true =
      .ok (SwapState.mk (some (SwapPool.mk 0 1100 918 1000)) 100 82 0 1100 918) ∧
    (SwapPool.mk 0 1000 1000 1000).fis_balance * (SwapPool.mk 0 1000 1000 1000).rtoken_balance ≤
      (SwapPool.mk 0 1100 918 1000).fis_balance * (SwapPool.mk 0 1100 918 1000).rtoken_balance :=
  ⟨by rfl, by rfl,
    swap_product_nondecreasing
      (SwapState.mk (some (SwapPool.mk 0 1000 1000 1000)) 200 0 0 1000 1000)
      (SwapPool.mk 0 1000 1000 1000) 100 1 true
      (SwapState.mk (some (SwapPool.mk 0 1100 918 1000)) 100 82 0 1100 918)
      (SwapPool.mk 0 1100 918 1000)
      (by rfl) (by decide) (by decide) (by decide) (by decide) (by decide) (by decide)
      (by decide) (by rfl) (by rfl)⟩


/-! ## rtoken series pallet: bond lifecycle

The embedding is per-symbol and per-call-key: external interfaces (the
ledger, the rate oracle, the bridge, the relayer set, signature
verification from `signature.rs`) are abstracted as an environment record,
and the storage maps are narrowed to the entries the modelled call can
touch.  Account ids, pool ids, block hashes, tx hashes and recipients are
opaque `Nat` tags. -/

/-- `MAX_UNLOCKING_CHUNKS` (source line 34). -/
def MAX_UNLOCKING_CHUNKS : ℕ := 32

/-- `MIN_UNLOCKING_CHUNKS` (source line 35). -/
def MIN_UNLOCKING_CHUNKS : ℕ := 16

/-- `UserUnlockChunk` (models.rs; fields per the spec's data model). -/
structure UserUnlockChunk where
  pool : ℕ
  unlock_era : ℕ
  value : ℕ
  recipient : ℕ
deriving DecidableEq, Repr

/-- `rtoken_ledger::Unbonding` entry of a pool-unbond queue. -/
structure Unbonding where
  who : ℕ
  value : ℕ
  recipient : ℕ
deriving DecidableEq, Repr

/-- The series pallet's `decl_error!` enum (plus the ledger errors it
raises, the string error `"not refundable"` as `NotRefundable`, and
`TransferFailed`/`BridgeError` for failures inside external modules). -/
inductive SeriesError where
  | BondSwitchClosed
  | InvalidProxyAccount
  | PoolNotFound
  | NoRelayFeesReceiver
  | LiquidityBondZero
  | TxhashUnavailable
  | TxhashUnexecutable
  | BondRepeated
  | InvalidRSymbol
  | InvalidPubkey
  | InvalidSignature
  | OverFlow
  | PoolLimitReached
  | BondNotFound
  | BondProcessing
  | LiquidityUnbondZero
  | NoMoreUnbondingChunks
  | NoCurrentEra
  | InvalidEra
  | Insufficient
  | BondingDurationNotSet
  | SignatureRepeated
  | NominationsInitialized
  | ExpireNotSet
  | SwapNotExist
  | NoReceiver
  | PoolNotBonded
  | RsymbolNotMapped
  | NotRefundable
  | TransferFailed
  | BridgeError
deriving DecidableEq, Repr

/-- Environment of `liquidity_unbond`: per-symbol configuration and the
external ledger/oracle reads.  `recipient_valid` abstracts
`verify_recipient` (signature.rs, outside src/); `rtoken_to_token` is the
rate oracle. -/
structure UnbondEnv where
  rtoken_bond_switch : Bool
  bonded_pools : List ℕ
  recipient_valid : ℕ → Bool
  chain_era : Option ℕ
  bonding_duration : Option ℕ
  receiver : Option ℕ
  relay_fees_receiver : Option ℕ
  rtoken_to_token : ℕ → ℕ
  era_unbond_limit : ℕ
  unbond_commission_parts : ℕ
  unbond_fees : ℕ

/-- State slice touched by one `liquidity_unbond` call: the caller's
balances, the `BondPipelines` entry for `(symbol, pool)`, the caller's
`AccountUnbonds` vector and the `PoolUnbonds` entry for
`(symbol, (pool, unlock_era))`. -/
structure UnbondState where
  user_rtoken : ℕ
  user_fis : ℕ
  pipeline_bond : ℕ
  pipeline_unbond : ℕ
  pipeline_active : ℕ
  account_unbonds : Option (List UserUnlockChunk)
  pool_unbonds : Option (List Unbonding)
deriving DecidableEq, Repr

/-- The chunk-vector reduction of `liquidity_unbond` (source lines
503-520): when the vector has reached `MAX_UNLOCKING_CHUNKS`, keep the
chunks with `unlock_era ≥ current_era`; if fewer than
`MIN_UNLOCKING_CHUNKS` remain, instead drop the oldest
`MAX - MIN + 1 = 17` entries of the original vector. -/
def prune_chunks (user_unlocking : List UserUnlockChunk) (current_era : ℕ) :
    List UserUnlockChunk :=
  if user_unlocking.length ≥ MAX_UNLOCKING_CHUNKS then
    let ac_unbonds_filter := user_unlocking.filter
      (fun chunk => decide (chunk.unlock_era ≥ current_era))
    if ac_unbonds_filter.length < MIN_UNLOCKING_CHUNKS then
      user_unlocking.drop (MAX_UNLOCKING_CHUNKS - MIN_UNLOCKING_CHUNKS + 1)
    else ac_unbonds_filter
  else user_unlocking

/-- Tail of extrinsic `liquidity_unbond` (source lines 491-545), from the
free-balance check onward: commission split, pipeline update, chunk pruning
and cap, era-limit check, appends, fee transfers, burn, and the final
stores.  The unbond commission is `Perbill::from_parts(p) * value =
value·p/10^9` (truncating). -/
def liquidity_unbond_fin (env : UnbondEnv) (st : UnbondState)
    (who pool value recipient current_era unlock_era : ℕ) :
    Except SeriesError UnbondState :=
  if value ≤ st.user_rtoken then
    if value * env.unbond_commission_parts / 1000000000 ≤ value then
      if value - value * env.unbond_commission_parts / 1000000000 > 0 then
        if st.pipeline_unbond + env.rtoken_to_token
            (value - value * env.unbond_commission_parts / 1000000000) ≤ U128_MAX then
          if env.rtoken_to_token
              (value - value * env.unbond_commission_parts / 1000000000) ≤
                st.pipeline_active then
            if (prune_chunks (st.account_unbonds.getD []) current_era).length <
                MAX_UNLOCKING_CHUNKS then
              if env.era_unbond_limit = 0 ∨
                  (st.pool_unbonds.getD []).length ≤ env.era_unbond_limit then
                if env.unbond_fees = 0 ∨ env.unbond_fees ≤ st.user_fis then
                  if value * env.unbond_commission_parts / 1000000000 ≤ st.user_rtoken then
                    if value - value * env.unbond_commission_parts / 1000000000 ≤
                        st.user_rtoken - value * env.unbond_commission_parts / 1000000000 then
                      .ok { st with
                        user_fis := st.user_fis - env.unbond_fees,
                        user_rtoken := st.user_rtoken -
                          value * env.unbond_commission_parts / 1000000000 -
                          (value - value * env.unbond_commission_parts / 1000000000),
                        pipeline_unbond := st.pipeline_unbond + env.rtoken_to_token
                          (value - value * env.unbond_commission_parts / 1000000000),
                        pipeline_active := st.pipeline_active - env.rtoken_to_token
                          (value - value * env.unbond_commission_parts / 1000000000),
                        account_unbonds := some
                          (prune_chunks (st.account_unbonds.getD []) current_era ++
                            [UserUnlockChunk.mk pool unlock_era (env.rtoken_to_token
                              (value - value * env.unbond_commission_parts / 1000000000))
                              recipient]),
                        pool_unbonds := some ((st.pool_unbonds.getD []) ++
                          [Unbonding.mk who (env.rtoken_to_token
                            (value - value * env.unbond_commission_parts / 1000000000))
                            recipient]) }
                    else .error .TransferFailed
                  else .error .TransferFailed
                else .error .TransferFailed
              else .error .PoolLimitReached
            else .error .NoMoreUnbondingChunks
          else .error .Insufficient
        else .error .OverFlow
      else .error .Insufficient
    else .error .Insufficient
  else .error .Insufficient

/-- Extrinsic `liquidity_unbond` (source lines 469-545): the leading
validations and ledger reads, then `liquidity_unbond_fin`.  `unlock_era` is
the wrapping u32 sum `current_era + bonding_duration`. -/
def liquidity_unbond (env : UnbondEnv) (st : UnbondState) (who pool value recipient : ℕ) :
    Except SeriesError UnbondState :=
  if value > 0 then
    if env.rtoken_bond_switch = true then
      if pool ∈ env.bonded_pools then
        if env.recipient_valid recipient = true then
          match env.chain_era with
          | none => .error .NoCurrentEra
          | some current_era =>
            match env.bonding_duration with
            | none => .error .BondingDurationNotSet
            | some bonding_duration =>
              match env.receiver with
              | none => .error .NoReceiver
              | some _receiver =>
                match env.relay_fees_receiver with
                | none => .error .NoRelayFeesReceiver
                | some _relay_fees_receiver =>
                  liquidity_unbond_fin env st who pool value recipient current_era
                    ((current_era + bonding_duration) % 2 ^ 32)
        else .error .InvalidPubkey
      else .error .PoolNotFound
    else .error .BondSwitchClosed
  else .error .LiquidityUnbondZero

/-- C6: on every successful `liquidity_unbond`, the stored chunk vector is
the pruned vector (length-≥-32 vectors are reduced by the filter/drop-17
algorithm, spelled out in the first conjunct) plus the appended chunk; the
pruned length had to be < 32 (else `NoMoreUnbondingChunks`), so the stored
vector has length ≤ 32. -/
theorem liquidity_unbond_chunk_cap
    (env : UnbondEnv) (st : UnbondState) (who pool value recipient : ℕ)
    (st' : UnbondState) (era dur rcv rfr : ℕ)
    (he : env.chain_era = some era) (hd : env.bonding_duration = some dur)
    (hrcv : env.receiver = some rcv) (hrf : env.relay_fees_receiver = some rfr)
    (hok : liquidity_unbond env st who pool value recipient = .ok st') :
    prune_chunks (st.account_unbonds.getD []) era =
      (if (st.account_unbonds.getD []).length ≥ 32 then
        if ((st.account_unbonds.getD []).filter
            (fun chunk => decide (chunk.unlock_era ≥ era))).length < 16 then
          (st.account_unbonds.getD []).drop 17
        else (st.account_unbonds.getD []).filter
            (fun chunk => decide (chunk.unlock_era ≥ era))
      else st.account_unbonds.getD []) ∧
    (prune_chunks (st.account_unbonds.getD []) era).length < 32 ∧
    ∃ c, st'.account_unbonds =
        some (prune_chunks (st.account_unbonds.getD []) era ++ [c]) ∧
      (prune_chunks (st.account_unbonds.getD []) era ++ [c]).length ≤ 32 := by
  simp only [liquidity_unbond, he, hd, hrcv, hrf] at hok
  split at hok
  case isFalse => exact Except.noConfusion hok
  case isTrue h1 =>
  split at hok
  case isFalse => exact Except.noConfusion hok
  case isTrue h2 =>
  split at hok
  case isFalse => exact Except.noConfusion hok
  case isTrue h3 =>
  split at hok
  case isFalse => exact Except.noConfusion hok
  case isTrue h4 =>
  unfold liquidity_unbond_fin at hok
  by_cases h5 : value ≤ st.user_rtoken
  swap
  · rw [if_neg h5] at hok; exact Except.noConfusion hok
  rw [if_pos h5] at hok
  by_cases h6 : value * env.unbond_commission_parts / 1000000000 ≤ value
  swap
  · rw [if_neg h6] at hok; exact Except.noConfusion hok
  rw [if_pos h6] at hok
  by_cases h7 : value - value * env.unbond_commission_parts / 1000000000 > 0
  swap
  · rw [if_neg h7] at hok; exact Except.noConfusion hok
  rw [if_pos h7] at hok
  by_cases h8 : st.pipeline_unbond + env.rtoken_to_token
      (value - value * env.unbond_commission_parts / 1000000000) ≤ U128_MAX
  swap
  · rw [if_neg h8] at hok; exact Except.noConfusion hok
  rw [if_pos h8] at hok
  by_cases h9 : env.rtoken_to_token
      (value - value * env.unbond_commission_parts / 1000000000) ≤ st.pipeline_active
  swap
  · rw [if_neg h9] at hok; exact Except.noConfusion hok
  rw [if_pos h9] at hok
  by_cases hlen : (prune_chunks (st.account_unbonds.getD []) era).length <
      MAX_UNLOCKING_CHUNKS
  swap
  · rw [if_neg hlen] at hok; exact Except.noConfusion hok
  rw [if_pos hlen] at hok
  by_cases hcap : env.era_unbond_limit = 0 ∨
      (st.pool_unbonds.getD []).length ≤ env.era_unbond_limit
  swap
  · rw [if_neg hcap] at hok; exact Except.noConfusion hok
  rw [if_pos hcap] at hok
  by_cases h10 : env.unbond_fees = 0 ∨ env.unbond_fees ≤ st.user_fis
  swap
  · rw [if_neg h10] at hok; exact Except.noConfusion hok
  rw [if_pos h10] at hok
  by_cases h11 : value * env.unbond_commission_parts / 1000000000 ≤ st.user_rtoken
  swap
  · rw [if_neg h11] at hok; exact Except.noConfusion hok
  rw [if_pos h11] at hok
  by_cases h12 : value - value * env.unbond_commission_parts / 1000000000 ≤
      st.user_rtoken - value * env.unbond_commission_parts / 1000000000
  swap
  · rw [if_neg h12] at hok; exact Except.noConfusion hok
  rw [if_pos h12] at hok
  injection hok with hok
  subst hok
  refine ⟨rfl, hlen, ?_⟩
  refine ⟨_, rfl, ?_⟩
  simp only [List.length_append, List.length_singleton]
  have h32 : (prune_chunks (st.account_unbonds.getD []) era).length < 32 := hlen
  omega

/-- C7: with every earlier validation of `liquidity_unbond` passing, the
call fails with `PoolLimitReached` if and only if the per-era unbond limit
is positive and the pre-append queue length strictly exceeds it (the check
is `len ≤ limit` on the pre-append length); and on success the stored queue
is the old queue plus one entry — so at `len = limit` the queue reaches
`limit + 1`. -/
theorem liquidity_unbond_pool_limit_iff
    (env : UnbondEnv) (st : UnbondState) (who pool value recipient : ℕ)
    (era dur rcv rfr : ℕ)
    (he : env.chain_era = some era) (hd : env.bonding_duration = some dur)
    (hrcv : env.receiver = some rcv) (hrf : env.relay_fees_receiver = some rfr)
    (h1 : value > 0) (h2 : env.rtoken_bond_switch = true)
    (h3 : pool ∈ env.bonded_pools) (h4 : env.recipient_valid recipient = true)
    (h5 : value ≤ st.user_rtoken)
    (h6 : value * env.unbond_commission_parts / 1000000000 ≤ value)
    (h7 : 0 < value - value * env.unbond_commission_parts / 1000000000)
    (h8 : st.pipeline_unbond + env.rtoken_to_token
      (value - value * env.unbond_commission_parts / 1000000000) ≤ U128_MAX)
    (h9 : env.rtoken_to_token
      (value - value * env.unbond_commission_parts / 1000000000) ≤ st.pipeline_active)
    (hlen : (prune_chunks (st.account_unbonds.getD []) era).length <
      MAX_UNLOCKING_CHUNKS) :
    (liquidity_unbond env st who pool value recipient = .error .PoolLimitReached ↔
      0 < env.era_unbond_limit ∧
        env.era_unbond_limit < (st.pool_unbonds.getD []).length) ∧
    (∀ st', liquidity_unbond env st who pool value recipient = .ok st' →
      st'.pool_unbonds = some ((st.pool_unbonds.getD []) ++
        [Unbonding.mk who (env.rtoken_to_token
          (value - value * env.unbond_commission_parts / 1000000000)) recipient])) := by
  constructor
  · constructor
    · intro herr
      simp only [liquidity_unbond, he, hd, hrcv, hrf] at herr
      rw [if_pos h1, if_pos h2, if_pos h3, if_pos h4] at herr
      unfold liquidity_unbond_fin at herr
      rw [if_pos h5, if_pos h6, if_pos h7, if_pos h8, if_pos h9, if_pos hlen] at herr
      by_cases hcap : env.era_unbond_limit = 0 ∨
          (st.pool_unbonds.getD []).length ≤ env.era_unbond_limit
      · rw [if_pos hcap] at herr
        by_cases h10 : env.unbond_fees = 0 ∨ env.unbond_fees ≤ st.user_fis
        swap
        · rw [if_neg h10] at herr; simp at herr
        rw [if_pos h10] at herr
        by_cases h11 : value * env.unbond_commission_parts / 1000000000 ≤ st.user_rtoken
        swap
        · rw [if_neg h11] at herr; simp at herr
        rw [if_pos h11] at herr
        by_cases h12 : value - value * env.unbond_commission_parts / 1000000000 ≤
            st.user_rtoken - value * env.unbond_commission_parts / 1000000000
        swap
        · rw [if_neg h12] at herr; simp at herr
        rw [if_pos h12] at herr
        exact Except.noConfusion herr
      · rw [if_neg hcap] at herr
        push_neg at hcap
        exact ⟨Nat.pos_of_ne_zero hcap.1, hcap.2⟩
    · intro hc
      obtain ⟨hc1, hc2⟩ := hc
      simp only [liquidity_unbond, he, hd, hrcv, hrf]
      rw [if_pos h1, if_pos h2, if_pos h3, if_pos h4]
      unfold liquidity_unbond_fin
      rw [if_pos h5, if_pos h6, if_pos h7, if_pos h8, if_pos h9, if_pos hlen,
        if_neg (show ¬ (env.era_unbond_limit = 0 ∨
          (st.pool_unbonds.getD []).length ≤ env.era_unbond_limit) by omega)]
  · intro st' hok
    simp only [liquidity_unbond, he, hd, hrcv, hrf] at hok
    rw [if_pos h1, if_pos h2, if_pos h3, if_pos h4] at hok
    unfold liquidity_unbond_fin at hok
    rw [if_pos h5, if_pos h6, if_pos h7, if_pos h8, if_pos h9, if_pos hlen] at hok
    by_cases hcap : env.era_unbond_limit = 0 ∨
        (st.pool_unbonds.getD []).length ≤ env.era_unbond_limit
    swap
    · rw [if_neg hcap] at hok; exact Except.noConfusion hok
    rw [if_pos hcap] at hok
    by_cases h10 : env.unbond_fees = 0 ∨ env.unbond_fees ≤ st.user_fis
    swap
    · rw [if_neg h10] at hok; exact Except.noConfusion hok
    rw [if_pos h10] at hok
    by_cases h11 : value * env.unbond_commission_parts / 1000000000 ≤ st.user_rtoken
    swap
    · rw [if_neg h11] at hok; exact Except.noConfusion hok
    rw [if_pos h11] at hok
    by_cases h12 : value - value * env.unbond_commission_parts / 1000000000 ≤
        st.user_rtoken - value * env.unbond_commission_parts / 1000000000
    swap
    · rw [if_neg h12] at hok; exact Except.noConfusion hok
    rw [if_pos h12] at hok
    injection hok with hok
    subst hok
    rfl


/-- Concrete environment for the C6/C7 witnesses. -/
def c6_env : UnbondEnv :=
  UnbondEnv.mk true [1] (fun _ => true) (some 10) (some 2) (some 7) (some 8)
    (fun n => n) 0 0 0

/-- Concrete pre-state for the C6 witness. -/
def c6_st : UnbondState := UnbondState.mk 100 0 0 0 100 none none

/-- Concrete post-state for the C6 witness. -/
def c6_st2 : UnbondState :=
  UnbondState.mk 50 0 0 50 50 (some [UserUnlockChunk.mk 1 12 50 2])
    (some [Unbonding.mk 1 50 2])

/-- Witness for C6: a concrete successful unbond appends one chunk and keeps
the vector within the cap. -/
theorem liquidity_unbond_chunk_cap_witness :
    c6_env.chain_era = some 10 ∧ c6_env.bonding_duration = some 2 ∧
    c6_env.receiver = some 7 ∧ c6_env.relay_fees_receiver = some 8 ∧
    liquidity_unbond c6_env c6_st 1 1 50 2 = .ok c6_st2 ∧
    (prune_chunks (c6_st.account_unbonds.getD []) 10 =
      (if (c6_st.account_unbonds.getD []).length ≥ 32 then
        if ((c6_st.account_unbonds.getD []).filter
            (fun chunk => decide (chunk.unlock_era ≥ 10))).length < 16 then
          (c6_st.account_unbonds.getD []).drop 17
        else (c6_st.account_unbonds.getD []).filter
            (fun chunk => decide (chunk.unlock_era ≥ 10))
      else c6_st.account_unbonds.getD []) ∧
    (prune_chunks (c6_st.account_unbonds.getD []) 10).length < 32 ∧
    ∃ c, c6_st2.account_unbonds =
        some (prune_chunks (c6_st.account_unbonds.getD []) 10 ++ [c]) ∧
      (prune_chunks (c6_st.account_unbonds.getD []) 10 ++ [c]).length ≤ 32) :=
  ⟨rfl, rfl, rfl, rfl, rfl,
    liquidity_unbond_chunk_cap c6_env c6_st 1 1 50 2 c6_st2 10 2 7 8
      rfl rfl rfl rfl rfl⟩

/-- Concrete environment for the C7 witness: `era_unbond_limit = 1`. -/
def c7_env : UnbondEnv :=
  UnbondEnv.mk true [1] (fun _ => true) (some 10) (some 2) (some 7) (some 8)
    (fun n => n) 1 0 0

/-- Concrete pre-state for the C7 witness: the era queue already holds one
entry, i.e. pre-append length = limit. -/
def c7_st : UnbondState := UnbondState.mk 100 0 0 0 100 none (some [Unbonding.mk 9 5 9])

/-- Witness for C7 at pre-append length = limit = 1: the call does not fail
with `PoolLimitReached`, and a successful call stores a queue of length
`limit + 1`. -/
theorem liquidity_unbond_pool_limit_iff_witness :
    (50 : ℕ) > 0 ∧ (50 : ℕ) ≤ c7_st.user_rtoken ∧
    ((liquidity_unbond c7_env c7_st 1 1 50 2 = .error .PoolLimitReached ↔
      0 < c7_env.era_unbond_limit ∧
        c7_env.era_unbond_limit < (c7_st.pool_unbonds.getD []).length) ∧
    (∀ st', liquidity_unbond c7_env c7_st 1 1 50 2 = .ok st' →
      st'.pool_unbonds = some ((c7_st.pool_unbonds.getD []) ++
        [Unbonding.mk 1 (c7_env.rtoken_to_token
          (50 - 50 * c7_env.unbond_commission_parts / 1000000000)) 2]))) :=
  ⟨by decide, by decide,
    liquidity_unbond_pool_limit_iff c7_env c7_st 1 1 50 2 10 2 7 8
      rfl rfl rfl rfl (by decide) rfl (by decide) rfl (by decide) (by decide)
      (by decide) (by decide) (by decide) (by decide)⟩


/-! ## Bond lifecycle: submission, execution, refund -/

/-- `BondState` (models.rs; spec section 3). -/
inductive BondState where
  | Dealing
  | Fail
  | Success
deriving DecidableEq, Repr

/-- Modelled from the spec: `BondReason` lives in models.rs, which is not
under src/; the spec says it is `{ Pass, plus rejection reasons }` — all
rejection reasons collapse to `Rejected`, which is sound for the claims
here since the code only branches on `reason != Pass`. -/
inductive BondReason where
  | Pass
  | Rejected
deriving DecidableEq, Repr

/-- Modelled from the spec: the result type of `verify_signature`
(signature.rs, not under src/): `{ Pass, InvalidPubkey, Fail }`. -/
inductive SigVerifyResult where
  | Pass
  | InvalidPubkey
  | Fail
deriving DecidableEq, Repr

/-- `BondRecord` (models.rs; spec section 3): immutable once inserted,
content-addressed by `bond_id = hash_of(record)`.  The embedding treats the
record itself as its `bond_id` (the hash is injective on canonical
encodings). -/
structure BondRecord where
  bonder : ℕ
  symbol : ℕ
  pubkey : ℕ
  pool : ℕ
  blockhash : ℕ
  txhash : ℕ
  amount : ℕ
deriving DecidableEq, Repr

/-- `BondSwap` (models.rs; spec section 3). -/
structure BondSwap where
  bonder : ℕ
  swap_fee : ℕ
  swap_receiver : ℕ
  bridger : ℕ
  recipient : ℕ
  dest_id : ℕ
  expire : ℕ
  bond_state : BondState
  refunded : Bool
deriving DecidableEq, Repr

/-- Environment of the bond extrinsics: per-symbol switches and fees, the
bonded-pool set, and the external modules.  `verify_result` abstracts the
outcome of `verify_signature` on this call's pubkey/signature/message
(signature.rs is outside src/; for ethereum-family symbols the message is
the ASCII-hex of the encoded account id, otherwise the raw encoding);
`swapable` abstracts `bridge::swapable` and `bridge_transfer_ok` the
success of `bridge::transfer_fungible`. -/
structure BondEnv where
  bond_switch : Bool
  rtoken_bond_switch : Bool
  bonded_pools : List ℕ
  verify_result : SigVerifyResult
  relay_fees_receiver : Option ℕ
  bond_fees : ℕ
  chain_identity : ℕ
  swapable : Option (ℕ × ℕ × ℕ)
  rsymbol_resource : Option ℕ
  bond_swap_refund_expire : Option ℕ
  token_to_rtoken : ℕ → ℕ
  bridge_transfer_ok : Bool

/-- State slice touched by the bond extrinsics: the storage maps keyed by
`(blockhash, txhash)` resp. `bond_id`, the caller's per-symbol bond count,
the native and rtoken balance ledgers, and the `BondPipelines` entry for
the record's pool. -/
structure BondLifeState where
  bond_states : ℕ × ℕ → Option BondState
  bond_records : BondRecord → Bool
  bond_reasons : BondRecord → Option BondReason
  bond_swaps : BondRecord → Option BondSwap
  account_bond_count : ℕ
  balances : ℕ → ℕ
  rtoken_balances : ℕ → ℕ
  pipeline_bond : ℕ
  pipeline_active : ℕ

/-- A native-currency transfer between the accounts of a balance map:
moves `amount`, fails when the payer's balance is insufficient. -/
def map_transfer (bal : ℕ → ℕ) (src dst amount : ℕ) : Option (ℕ → ℕ) :=
  if amount ≤ bal src then
    if src = dst then some bal
    else some (fun a => if a = src then bal a - amount
      else if a = dst then bal a + amount else bal a)
  else none

/-- `Module::is_txhash_available` (source lines 596-603): absent or `Fail`. -/
def is_txhash_available (st : BondLifeState) (blockhash txhash : ℕ) : Bool :=
  match st.bond_states (blockhash, txhash) with
  | none => true
  | some state => decide (state = BondState.Fail)

/-- `Module::is_txhash_executable` (source lines 605-612): `Dealing` or
`Fail`. -/
def is_txhash_executable (st : BondLifeState) (blockhash txhash : ℕ) : Bool :=
  match st.bond_states (blockhash, txhash) with
  | none => false
  | some state => decide (state = BondState.Dealing ∨ state = BondState.Fail)

/-- `Module::bondable` (source lines 618-636): the common validations of
`liquidity_bond` and `liquidity_bond_and_swap`. -/
def bondable (env : BondEnv) (st : BondLifeState) (blockhash txhash amount pool : ℕ) :
    Except SeriesError Unit :=
  if env.bond_switch = true then
    if env.rtoken_bond_switch = true then
      if amount > 0 then
        if is_txhash_available st blockhash txhash = true then
          if pool ∈ env.bonded_pools then
            match env.verify_result with
            | .InvalidPubkey => .error .InvalidPubkey
            | .Fail => .error .InvalidSignature
            | .Pass => .ok ()
          else .error .PoolNotBonded
        else .error .TxhashUnavailable
      else .error .LiquidityBondZero
    else .error .BondSwitchClosed
  else .error .BondSwitchClosed

/-- Tail of `liquidity_bond` (source lines 346-364) after `bondable`. -/
def liquidity_bond_main (env : BondEnv) (st : BondLifeState)
    (who pubkey pool blockhash txhash amount symbol : ℕ) :
    Except SeriesError BondLifeState :=
  match env.relay_fees_receiver with
  | none => .error .NoRelayFeesReceiver
  | some receiver =>
    let record := BondRecord.mk who symbol pubkey pool blockhash txhash amount
    if st.bond_records record = true then .error .BondRepeated
    else
      if st.account_bond_count + 1 ≤ 2 ^ 64 - 1 then
        match (if env.bond_fees > 0 then
            map_transfer st.balances who receiver env.bond_fees
          else some st.balances) with
        | none => .error .TransferFailed
        | some bal2 =>
          .ok { st with
            balances := bal2,
            bond_states := fun k => if k = (blockhash, txhash) then some .Dealing
              else st.bond_states k,
            account_bond_count := st.account_bond_count + 1,
            bond_records := fun r => if r = record then true else st.bond_records r }
      else .error .OverFlow

/-- Extrinsic `liquidity_bond` (source lines 342-365). -/
def liquidity_bond (env : BondEnv) (st : BondLifeState)
    (who pubkey pool blockhash txhash amount symbol : ℕ) :
    Except SeriesError BondLifeState :=
  match bondable env st blockhash txhash amount pool with
  | .error e => .error e
  | .ok () => liquidity_bond_main env st who pubkey pool blockhash txhash amount symbol

/-- Tail of `liquidity_bond_and_swap` (source lines 375-409) after
`bondable`: the cross-chain fee routing and the `BondSwap` insertion. -/
def liquidity_bond_and_swap_main (env : BondEnv) (st : BondLifeState)
    (who pubkey pool blockhash txhash amount symbol recipient dest_id : ℕ) :
    Except SeriesError BondLifeState :=
  match env.relay_fees_receiver with
  | none => .error .NoRelayFeesReceiver
  | some bond_receiver =>
    let record := BondRecord.mk who symbol pubkey pool blockhash txhash amount
    if st.bond_records record = true then .error .BondRepeated
    else
      if st.account_bond_count + 1 ≤ 2 ^ 64 - 1 then
        if dest_id ≠ env.chain_identity then
          match env.swapable with
          | none => .error .BridgeError
          | some sw =>
            match env.rsymbol_resource with
            | none => .error .RsymbolNotMapped
            | some _resource =>
              let route :=
                if sw.1 > 0 ∧ env.bond_fees > 0 then
                  match map_transfer st.balances who sw.2.2
                    (satAdd128 sw.1 env.bond_fees) with
                  | none => none
                  | some b1 => map_transfer b1 sw.2.2 bond_receiver env.bond_fees
                else if sw.1 > 0 then map_transfer st.balances who sw.2.2 sw.1
                else if env.bond_fees > 0 then
                  map_transfer st.balances who bond_receiver env.bond_fees
                else some st.balances
              match route with
              | none => .error .TransferFailed
              | some bal2 =>
                .ok { st with
                  balances := bal2,
                  bond_swaps := fun r => if r = record then
                    some (BondSwap.mk who sw.1 sw.2.1 sw.2.2 recipient dest_id 0
                      .Dealing false)
                    else st.bond_swaps r,
                  bond_states := fun k => if k = (blockhash, txhash) then some .Dealing
                    else st.bond_states k,
                  account_bond_count := st.account_bond_count + 1,
                  bond_records := fun r => if r = record then true else st.bond_records r }
        else
          match (if env.bond_fees > 0 then
              map_transfer st.balances who bond_receiver env.bond_fees
            else some st.balances) with
          | none => .error .TransferFailed
          | some bal2 =>
            .ok { st with
              balances := bal2,
              bond_states := fun k => if k = (blockhash, txhash) then some .Dealing
                else st.bond_states k,
              account_bond_count := st.account_bond_count + 1,
              bond_records := fun r => if r = record then true else st.bond_records r }
      else .error .OverFlow

/-- Extrinsic `liquidity_bond_and_swap` (source lines 369-410). -/
def liquidity_bond_and_swap (env : BondEnv) (st : BondLifeState)
    (who pubkey pool blockhash txhash amount symbol recipient dest_id : ℕ) :
    Except SeriesError BondLifeState :=
  match bondable env st blockhash txhash amount pool with
  | .error e => .error e
  | .ok () => liquidity_bond_and_swap_main env st who pubkey pool blockhash txhash
      amount symbol recipient dest_id

/-- Body of `execute_bond_record` (source lines 420-464) after the record
lookup and executability check.  External calls: the rate oracle
(`token_to_rtoken`), `RCurrency::mint` (an unchecked credit here) and
`bridge::transfer_fungible` (abstracted as `bridge_transfer_ok`).  The
claim-module update (line 462) has no observable effect in this state. -/
def execute_bond_record_main (env : BondEnv) (st : BondLifeState) (bond_id : BondRecord)
    (reason : BondReason) (now : ℕ) : Except SeriesError BondLifeState :=
  if reason ≠ BondReason.Pass then
    match st.bond_swaps bond_id with
    | some swap =>
      if swap.refunded = false then
        match env.bond_swap_refund_expire with
        | none => .error .ExpireNotSet
        | some expire_delta =>
          .ok { st with
            bond_swaps := fun r => if r = bond_id then
              some { swap with expire := expire_delta + now, bond_state := .Fail }
              else st.bond_swaps r,
            bond_reasons := fun r => if r = bond_id then some reason
              else st.bond_reasons r,
            bond_states := fun k => if k = (bond_id.blockhash, bond_id.txhash)
              then some .Fail else st.bond_states k }
      else
        .ok { st with
          bond_reasons := fun r => if r = bond_id then some reason
            else st.bond_reasons r,
          bond_states := fun k => if k = (bond_id.blockhash, bond_id.txhash)
            then some .Fail else st.bond_states k }
    | none =>
      .ok { st with
        bond_reasons := fun r => if r = bond_id then some reason
          else st.bond_reasons r,
        bond_states := fun k => if k = (bond_id.blockhash, bond_id.txhash)
          then some .Fail else st.bond_states k }
  else
    if st.pipeline_bond + bond_id.amount ≤ U128_MAX then
      if st.pipeline_active + bond_id.amount ≤ U128_MAX then
        match st.bond_swaps bond_id with
        | some swap =>
          match env.rsymbol_resource with
          | none => .error .RsymbolNotMapped
          | some _resource =>
            match map_transfer st.balances swap.bridger swap.swap_receiver
              swap.swap_fee with
            | none => .error .TransferFailed
            | some bal2 =>
              if env.bridge_transfer_ok = true then
                .ok { st with
                  balances := bal2,
                  rtoken_balances := fun a => if a = swap.bridger then
                    st.rtoken_balances a + env.token_to_rtoken bond_id.amount
                    else st.rtoken_balances a,
                  bond_swaps := fun r => if r = bond_id then
                    some { swap with bond_state := .Success } else st.bond_swaps r,
                  bond_reasons := fun r => if r = bond_id then some reason
                    else st.bond_reasons r,
                  bond_states := fun k => if k = (bond_id.blockhash, bond_id.txhash)
                    then some .Success else st.bond_states k,
                  pipeline_bond := st.pipeline_bond + bond_id.amount,
                  pipeline_active := st.pipeline_active + bond_id.amount }
              else .error .BridgeError
        | none =>
          .ok { st with
            rtoken_balances := fun a => if a = bond_id.bonder then
              st.rtoken_balances a + env.token_to_rtoken bond_id.amount
              else st.rtoken_balances a,
            bond_reasons := fun r => if r = bond_id then some reason
              else st.bond_reasons r,
            bond_states := fun k => if k = (bond_id.blockhash, bond_id.txhash)
              then some .Success else st.bond_states k,
            pipeline_bond := st.pipeline_bond + bond_id.amount,
            pipeline_active := st.pipeline_active + bond_id.amount }
      else .error .OverFlow
    else .error .OverFlow

/-- Extrinsic `execute_bond_record` (source lines 414-465), after the
voter-origin check. -/
def execute_bond_record (env : BondEnv) (st : BondLifeState) (bond_id : BondRecord)
    (reason : BondReason) (now : ℕ) : Except SeriesError BondLifeState :=
  if st.bond_records bond_id = true then
    if is_txhash_executable st bond_id.blockhash bond_id.txhash = true then
      execute_bond_record_main env st bond_id reason now
    else .error .TxhashUnexecutable
  else .error .BondNotFound

/-- Modelled from the spec: `BondSwap::refundable` is defined in models.rs,
which is not under src/; the spec defines it as
`¬refunded ∧ bond_state = Fail ∧ now ≥ expire ∧ expire > 0`. -/
def refundable (swap : BondSwap) (now : ℕ) : Bool :=
  !swap.refunded && decide (swap.bond_state = BondState.Fail) &&
    decide (now ≥ swap.expire) && decide (swap.expire > 0)

/-- Extrinsic `refund_swap_fee` (source lines 578-591): the error string
`"not refundable"` is the constructor `NotRefundable`. -/
def refund_swap_fee (st : BondLifeState) (bond_id : BondRecord) (now : ℕ) :
    Except SeriesError BondLifeState :=
  match st.bond_swaps bond_id with
  | none => .error .SwapNotExist
  | some swap =>
    if refundable swap now = true then
      match map_transfer st.balances swap.bridger swap.bonder swap.swap_fee with
      | none => .error .TransferFailed
      | some bal2 =>
        .ok { st with
          balances := bal2,
          bond_swaps := fun r => if r = bond_id then some { swap with refunded := true }
            else st.bond_swaps r }
    else .error .NotRefundable


/-- With stored state `Success`, the availability predicate is false. -/
theorem is_txhash_available_of_success
    (st : BondLifeState) (blockhash txhash : ℕ)
    (hS : st.bond_states (blockhash, txhash) = some .Success) :
    is_txhash_available st blockhash txhash = false := by
  unfold is_txhash_available
  rw [hS]
  rfl

/-- With stored state `Success`, the executability predicate is false. -/
theorem is_txhash_executable_of_success
    (st : BondLifeState) (blockhash txhash : ℕ)
    (hS : st.bond_states (blockhash, txhash) = some .Success) :
    is_txhash_executable st blockhash txhash = false := by
  unfold is_txhash_executable
  rw [hS]
  rfl

/-- With stored state `Success`, `bondable` always errors. -/
theorem bondable_error_of_success
    (env : BondEnv) (st : BondLifeState) (blockhash txhash amount pool : ℕ)
    (hS : st.bond_states (blockhash, txhash) = some .Success) :
    ∃ e, bondable env st blockhash txhash amount pool = .error e := by
  have hav := is_txhash_available_of_success st blockhash txhash hS
  unfold bondable
  rw [hav]
  by_cases h1 : env.bond_switch = true
  swap
  · exact ⟨_, by rw [if_neg h1]⟩
  rw [if_pos h1]
  by_cases h2 : env.rtoken_bond_switch = true
  swap
  · exact ⟨_, by rw [if_neg h2]⟩
  rw [if_pos h2]
  by_cases h3 : amount > 0
  swap
  · exact ⟨_, by rw [if_neg h3]⟩
  rw [if_pos h3, if_neg (show ¬(false = true) by decide)]
  exact ⟨_, rfl⟩

/-- With stored state `Success` and the switches on and a positive amount,
`bondable` fails with exactly `TxhashUnavailable`. -/
theorem bondable_txhash_unavailable
    (env : BondEnv) (st : BondLifeState) (blockhash txhash amount pool : ℕ)
    (hS : st.bond_states (blockhash, txhash) = some .Success)
    (h1 : env.bond_switch = true) (h2 : env.rtoken_bond_switch = true)
    (h3 : amount > 0) :
    bondable env st blockhash txhash amount pool = .error .TxhashUnavailable := by
  have hav := is_txhash_available_of_success st blockhash txhash hS
  unfold bondable
  rw [hav, if_pos h1, if_pos h2, if_pos h3, if_neg (show ¬(false = true) by decide)]

/-- C8: `bond_states[(symbol, (blockhash, txhash))] = Success` is terminal —
every subsequent `liquidity_bond` or `liquidity_bond_and_swap` for that
`(blockhash, txhash)` fails (with `TxhashUnavailable` once the switch and
amount validations pass, which precede the availability check), and every
`execute_bond_record` on a stored record carrying that `(blockhash, txhash)`
fails with `TxhashUnexecutable`. -/
theorem bond_success_terminal
    (env : BondEnv) (st : BondLifeState) (blockhash txhash : ℕ)
    (hS : st.bond_states (blockhash, txhash) = some .Success) :
    (∀ who pubkey pool amount symbol,
      ∃ e, liquidity_bond env st who pubkey pool blockhash txhash amount symbol =
        .error e) ∧
    (env.bond_switch = true → env.rtoken_bond_switch = true →
      ∀ who pubkey pool amount symbol, amount > 0 →
        liquidity_bond env st who pubkey pool blockhash txhash amount symbol =
          .error .TxhashUnavailable) ∧
    (∀ who pubkey pool amount symbol recipient dest_id,
      ∃ e, liquidity_bond_and_swap env st who pubkey pool blockhash txhash amount
        symbol recipient dest_id = .error e) ∧
    (env.bond_switch = true → env.rtoken_bond_switch = true →
      ∀ who pubkey pool amount symbol recipient dest_id, amount > 0 →
        liquidity_bond_and_swap env st who pubkey pool blockhash txhash amount
          symbol recipient dest_id = .error .TxhashUnavailable) ∧
    (∀ (bond_id : BondRecord) (reason : BondReason) (now : ℕ),
      st.bond_records bond_id = true →
      bond_id.blockhash = blockhash → bond_id.txhash = txhash →
      execute_bond_record env st bond_id reason now = .error .TxhashUnexecutable) := by
  refine ⟨?_, ?_, ?_, ?_, ?_⟩
  · intro who pubkey pool amount symbol
    obtain ⟨e, hbe⟩ := bondable_error_of_success env st blockhash txhash amount pool hS
    exact ⟨e, by simp only [liquidity_bond, hbe]⟩
  · intro hsw1 hsw2 who pubkey pool amount symbol hamt
    have hbe := bondable_txhash_unavailable env st blockhash txhash amount pool
      hS hsw1 hsw2 hamt
    simp only [liquidity_bond, hbe]
  · intro who pubkey pool amount symbol recipient dest_id
    obtain ⟨e, hbe⟩ := bondable_error_of_success env st blockhash txhash amount pool hS
    exact ⟨e, by simp only [liquidity_bond_and_swap, hbe]⟩
  · intro hsw1 hsw2 who pubkey pool amount symbol recipient dest_id hamt
    have hbe := bondable_txhash_unavailable env st blockhash txhash amount pool
      hS hsw1 hsw2 hamt
    simp only [liquidity_bond_and_swap, hbe]
  · intro bond_id reason now hrec hbh htx
    unfold execute_bond_record
    rw [if_pos hrec]
    have hexe : is_txhash_executable st bond_id.blockhash bond_id.txhash = false := by
      unfold is_txhash_executable
      rw [hbh, htx, hS]
      rfl
    rw [hexe, if_neg (show ¬(false = true) by decide)]

/-- Concrete state for the C8 witness: `(blockhash, txhash) = (1, 2)` has
reached `Success`. -/
def c8_st : BondLifeState :=
  BondLifeState.mk (fun k => if k = ((1 : ℕ), (2 : ℕ)) then some .Success else none)
    (fun _ => false) (fun _ => none) (fun _ => none) 0 (fun _ => 100) (fun _ => 0) 0 0

/-- Concrete environment for the C8 witness. -/
def c8_env : BondEnv :=
  BondEnv.mk true true [1] .Pass (some 8) 0 0 none none none (fun n => n) true

/-- Witness for C8 at the stored `Success` entry `(1, 2)`. -/
theorem bond_success_terminal_witness :
    c8_st.bond_states (1, 2) = some .Success ∧
    ((∀ who pubkey pool amount symbol,
      ∃ e, liquidity_bond c8_env c8_st who pubkey pool 1 2 amount symbol = .error e) ∧
    (c8_env.bond_switch = true → c8_env.rtoken_bond_switch = true →
      ∀ who pubkey pool amount symbol, amount > 0 →
        liquidity_bond c8_env c8_st who pubkey pool 1 2 amount symbol =
          .error .TxhashUnavailable) ∧
    (∀ who pubkey pool amount symbol recipient dest_id,
      ∃ e, liquidity_bond_and_swap c8_env c8_st who pubkey pool 1 2 amount
        symbol recipient dest_id = .error e) ∧
    (c8_env.bond_switch = true → c8_env.rtoken_bond_switch = true →
      ∀ who pubkey pool amount symbol recipient dest_id, amount > 0 →
        liquidity_bond_and_swap c8_env c8_st who pubkey pool 1 2 amount
          symbol recipient dest_id = .error .TxhashUnavailable) ∧
    (∀ (bond_id : BondRecord) (reason : BondReason) (now : ℕ),
      c8_st.bond_records bond_id = true →
      bond_id.blockhash = 1 → bond_id.txhash = 2 →
      execute_bond_record c8_env c8_st bond_id reason now =
        .error .TxhashUnexecutable)) :=
  ⟨rfl, bond_success_terminal c8_env c8_st 1 2 rfl⟩

/-- C9: with the bond-swap stored and the bridger able to pay, a
`refund_swap_fee` call succeeds exactly when `refundable(now)` holds; on
success it moves `swap_fee` from the bridger to the bonder and marks the
swap refunded, so a second call fails with `"not refundable"`. -/
theorem refund_swap_fee_refundable_iff
    (st : BondLifeState) (bond_id : BondRecord) (now : ℕ) (s : BondSwap)
    (hs : st.bond_swaps bond_id = some s)
    (hb : s.swap_fee ≤ st.balances s.bridger) :
    ((∃ st', refund_swap_fee st bond_id now = .ok st') ↔ refundable s now = true) ∧
    (∀ st', refund_swap_fee st bond_id now = .ok st' →
      st'.bond_swaps bond_id = some { s with refunded := true } ∧
      (s.bridger ≠ s.bonder →
        st'.balances s.bridger = st.balances s.bridger - s.swap_fee ∧
        st'.balances s.bonder = st.balances s.bonder + s.swap_fee) ∧
      ∀ now2, refund_swap_fee st' bond_id now2 = .error .NotRefundable) := by
  simp only [refund_swap_fee, hs]
  by_cases hr : refundable s now = true
  · rw [if_pos hr]
    simp only [map_transfer, if_pos hb]
    by_cases hbb : s.bridger = s.bonder
    · rw [if_pos hbb]
      constructor
      · exact ⟨fun _ => hr, fun _ => ⟨_, rfl⟩⟩
      · intro st' hok
        injection hok with hok
        subst hok
        refine ⟨by simp, fun hne => absurd hbb hne, ?_⟩
        intro now2
        simp [refund_swap_fee, refundable]
    · rw [if_neg hbb]
      constructor
      · exact ⟨fun _ => hr, fun _ => ⟨_, rfl⟩⟩
      · intro st' hok
        injection hok with hok
        subst hok
        refine ⟨by simp, ?_, ?_⟩
        · intro _
          constructor
          · simp
          · simp [show s.bonder ≠ s.bridger from fun h => hbb h.symm]
        · intro now2
          simp [refund_swap_fee, refundable]
  · rw [if_neg hr]
    constructor
    · constructor
      · intro h
        obtain ⟨st', hst'⟩ := h
        exact Except.noConfusion hst'
      · intro h
        exact absurd h hr
    · intro st' hok
      exact Except.noConfusion hok

/-- Concrete bond-swap for the C9 witness: failed, past expiry, not yet
refunded. -/
def c9_swap : BondSwap := BondSwap.mk 1 100 2 3 4 5 10 .Fail false

/-- Concrete record key for the C9 witness. -/
def c9_id : BondRecord := BondRecord.mk 1 0 0 6 1 2 1000

/-- Concrete state for the C9 witness. -/
def c9_st : BondLifeState :=
  BondLifeState.mk (fun _ => none) (fun _ => false) (fun _ => none)
    (fun r => if r = c9_id then some c9_swap else none) 0
    (fun a => if a = 3 then 100 else 0) (fun _ => 0) 0 0

/-- Witness for C9 at block number `now = 10 = expire`. -/
theorem refund_swap_fee_refundable_iff_witness :
    c9_st.bond_swaps c9_id = some c9_swap ∧
    c9_swap.swap_fee ≤ c9_st.balances c9_swap.bridger ∧
    (((∃ st', refund_swap_fee c9_st c9_id 10 = .ok st') ↔
      refundable c9_swap 10 = true) ∧
    (∀ st', refund_swap_fee c9_st c9_id 10 = .ok st' →
      st'.bond_swaps c9_id = some { c9_swap with refunded := true } ∧
      (c9_swap.bridger ≠ c9_swap.bonder →
        st'.balances c9_swap.bridger = c9_st.balances c9_swap.bridger -
          c9_swap.swap_fee ∧
        st'.balances c9_swap.bonder = c9_st.balances c9_swap.bonder +
          c9_swap.swap_fee) ∧
      ∀ now2, refund_swap_fee st' c9_id now2 = .error .NotRefundable)) :=
  ⟨rfl, by decide,
    refund_swap_fee_refundable_iff c9_st c9_id 10 c9_swap rfl (by decide)⟩

end Stafi
